import Mathlib

/-!
Formal model of the snap-confine launcher
(`src/cmd/snap-confine/snap-confine.c`).

The program is a setuid-root entry point.  We embed it shallowly: the
process credentials (real/effective/saved uid and gid) are explicit state,
the environment is an association list, and every externally visible
operation (locking, namespace manipulation, cgroup association, policy
loading, privilege transitions) is recorded as an event in a trace.
External collaborators (argument parser, validators, snapd cookie service,
AppArmor probe, the namespace helpers) are modelled by oracle fields of a
`World` record holding the results they would return; the control flow
around those results is translated directly from the C source.
-/

namespace SnapConfine


/-- POSIX credential set of the process: real, effective and saved
user and group ids, as returned by `getresuid`/`getresgid`. -/
structure Creds where
  ruid : Nat
  euid : Nat
  suid : Nat
  rgid : Nat
  egid : Nat
  sgid : Nat
  deriving DecidableEq, Repr

/-- Observable operations performed by snap-confine, in program order.
Each constructor corresponds to one call site in `snap-confine.c`. -/
inductive Event where
  | reassociatePid1
  | lockGlobal
  | ensureSharedSnapMount
  | initMountNsDir
  | unlockGlobal
  | openSnapUpdateNs
  | openSnapDiscardNs
  | lockSnap (snap : String)
  | openMountNs (snap : String)
  | classifyDistro
  | forkHelper
  | joinPreservedNs (snap : String)
  | unshareNs
  | populateMountNs (snap : String)
  | preserveMountNs (snap : String)
  | fixupPermissions
  | fixupUdev
  | joinPerUserNs (snap : String)
  | unsharePerUserNs
  | setupUserMounts (snap : String)
  | preservePerUserNs (snap : String)
  | cgroupFreezerJoin (snap : String)
  | unlockSnap (snap : String)
  | closeMountNs
  | setupUserData
  | cookieGet (snap : String)
  | aaChangeOnexec (tag : String)
  | applySeccomp (tag : String)
  | applyGlobalSeccomp
  | snappyUdevInit (tag : String)
  | setupDevicesCgroup (tag : String)
  | snappyUdevCleanup
  | setEgid (g : Nat)
  | setEuid (u : Nat)
  | setGid (g : Nat)
  | setUid (u : Nat)
  deriving DecidableEq, Repr

/-- Process state: credentials, environment variables and the trace of
events performed so far (oldest first). -/
structure PState where
  creds : Creds
  env : List (String × String)
  trace : List Event
  deriving DecidableEq, Repr

/-- Result of a program fragment: either it returns normally with the
updated state, or it calls `die()` (which exits the process with a
non-zero status), freezing the state at the point of death. -/
inductive Step where
  | ok (s : PState)
  | fatal (s : PState)
  deriving DecidableEq, Repr

/-- Result of the whole `main`: `die()` (non-zero exit), normal `return`
with a code (only the version query returns 0), or successful
`execv` replacing the process image with the target executable. -/
inductive Run where
  | fatal (s : PState)
  | exited (code : Nat) (s : PState)
  | execed (path : String) (s : PState)
  deriving DecidableEq, Repr

def PState.emit (s : PState) (e : Event) : PState :=
  { s with trace := s.trace ++ [e] }

def PState.emits (s : PState) (es : List Event) : PState :=
  { s with trace := s.trace ++ es }

@[simp] theorem PState.emit_creds (s : PState) (e : Event) : (s.emit e).creds = s.creds := rfl
@[simp] theorem PState.emit_env (s : PState) (e : Event) : (s.emit e).env = s.env := rfl
@[simp] theorem PState.emit_trace (s : PState) (e : Event) :
    (s.emit e).trace = s.trace ++ [e] := rfl
@[simp] theorem PState.emits_creds (s : PState) (es : List Event) : (s.emits es).creds = s.creds := rfl
@[simp] theorem PState.emits_env (s : PState) (es : List Event) : (s.emits es).env = s.env := rfl
@[simp] theorem PState.emits_trace (s : PState) (es : List Event) :
    (s.emits es).trace = s.trace ++ es := rfl

def Step.state : Step → PState
  | Step.ok s => s
  | Step.fatal s => s

def Step.isFatal : Step → Bool
  | Step.ok _ => false
  | Step.fatal _ => true

@[simp] theorem Step.state_ok (s : PState) : (Step.ok s).state = s := rfl
@[simp] theorem Step.state_fatal (s : PState) : (Step.fatal s).state = s := rfl
@[simp] theorem Step.isFatal_ok (s : PState) : (Step.ok s).isFatal = false := rfl
@[simp] theorem Step.isFatal_fatal (s : PState) : (Step.fatal s).isFatal = true := rfl

/-- Sequencing with early exit on `die()`, mirroring the fact that a
fatal error terminates the process immediately. -/
def Step.andThen (a : Step) (f : PState → Step) : Step :=
  match a with
  | Step.fatal s => Step.fatal s
  | Step.ok s => f s

@[simp] theorem Step.andThen_ok (s : PState) (f : PState → Step) :
    (Step.ok s).andThen f = f s := rfl
@[simp] theorem Step.andThen_fatal (s : PState) (f : PState → Step) :
    (Step.fatal s).andThen f = Step.fatal s := rfl

def Run.state : Run → PState
  | Run.fatal s => s
  | Run.exited _ s => s
  | Run.execed _ s => s

@[simp] theorem Run.state_of_fatal (s : PState) : (Run.fatal s).state = s := rfl
@[simp] theorem Run.state_exited (c : Nat) (s : PState) : (Run.exited c s).state = s := rfl
@[simp] theorem Run.state_execed (p : String) (s : PState) : (Run.execed p s).state = s := rfl

/-! ### Kernel semantics of the id-changing system calls

snap-confine relies on the POSIX behaviour of `setegid`/`seteuid`/
`setgid`/`setuid`.  A process whose effective uid is 0 may set the ids
arbitrarily; `setgid`/`setuid` then update real, effective and saved id
together, while the `sete*` forms update only the effective id.  An
unprivileged process may only switch to its real or saved id. -/

def setegidSem (g : Nat) (c : Creds) : Option Creds :=
  if c.euid = 0 ∨ g = c.rgid ∨ g = c.sgid then some { c with egid := g } else none

def seteuidSem (u : Nat) (c : Creds) : Option Creds :=
  if c.euid = 0 ∨ u = c.ruid ∨ u = c.suid then some { c with euid := u } else none

def setgidSem (g : Nat) (c : Creds) : Option Creds :=
  if c.euid = 0 then some { c with rgid := g, egid := g, sgid := g }
  else if g = c.rgid ∨ g = c.sgid then some { c with egid := g }
  else none

def setuidSem (u : Nat) (c : Creds) : Option Creds :=
  if c.euid = 0 then some { c with ruid := u, euid := u, suid := u }
  else if u = c.ruid ∨ u = c.suid then some { c with euid := u }
  else none

/-! ### Environment variables -/

/-- `getenv`: look up the first binding of a name. -/
def getenvL : List (String × String) → String → Option String
  | [], _ => none
  | (k, v) :: rest, n => if k = n then some v else getenvL rest n

/-- `setenv(name, value, 1)`: overwrite the first binding of the name,
or append a new binding. -/
def setenvL : List (String × String) → String → String → List (String × String)
  | [], n, v => [(n, v)]
  | (k, x) :: rest, n, v =>
    if k = n then (n, v) :: rest else (k, x) :: setenvL rest n v

/-! ### External inputs

`World` packages everything `main` observes from outside: command line
parsing results, environment, initial credentials, and the values the
external collaborators (validators, snapd, AppArmor, the namespace and
mount helpers) would return.  Each field corresponds to one call into
code outside `snap-confine.c`. -/

structure World where
  /-- `sc_nonfatal_parse_args` produced no error (`sc_die_on_error`). -/
  argsParseOk : Bool
  /-- `sc_args_is_version_query(args)`. -/
  isVersionQuery : Bool
  /-- `sc_instance_name_validate(snap_instance, NULL)` does not die. -/
  instanceNameValid : Bool
  /-- `sc_args_security_tag(args)`. -/
  securityTag : String
  /-- `verify_security_tag(security_tag, snap_instance)`. -/
  securityTagValid : Bool
  /-- `sc_args_executable(args)`. -/
  executable : String
  /-- `sc_snap_name_validate(base_snap_name, NULL)` does not die. -/
  baseSnapValid : Bool
  /-- `sc_args_is_classic_confinement(args)`. -/
  classicConfinement : Bool
  /-- Ids reported by `getresuid`/`getresgid` at startup. -/
  creds0 : Creds
  /-- Host process environment at startup. -/
  hostEnv : List (String × String)
  /-- `secure_getenv("SNAP_CONFINE_NO_ROOT") != NULL` (test override). -/
  snapConfineNoRoot : Bool
  /-- `apparmor.is_confined` after `sc_init_apparmor_support`. -/
  aaIsConfined : Bool
  /-- `apparmor.mode == SC_AA_NOT_APPLICABLE`. -/
  aaNotApplicable : Bool
  /-- `sc_is_hook_security_tag(security_tag)`. -/
  isHookTag : Bool
  /-- Cookie returned by `sc_cookie_get_from_snapd` (`none` when the
  call failed and only reported an error, leaving the cookie NULL). -/
  cookieFromSnapd : Option String
  /-- Return value of `sc_join_preserved_ns` (ESRCH means not found). -/
  joinNsResult : Nat
  /-- `unshare(CLONE_NEWNS)` (per-snap) succeeded. -/
  unshareOk : Bool
  /-- `sc_populate_mount_ns` completed (it dies internally otherwise). -/
  populateOk : Bool
  /-- Return value of `sc_join_preserved_per_user_ns`. -/
  joinPerUserNsResult : Nat
  /-- `unshare(CLONE_NEWNS)` (per-user) succeeded. -/
  perUserUnshareOk : Bool
  /-- `sc_setup_user_mounts` completed (it dies internally otherwise). -/
  setupUserMountsOk : Bool
  /-- `sc_feature_enabled(SC_PER_USER_MOUNT_NAMESPACE)`. -/
  perUserFeature : Bool
  /-- `sc_should_use_normal_mode(sc_classify_distro(), base_snap_name)`. -/
  isNormalMode : Bool
  /-- Return value of `sc_apply_seccomp_profile_for_security_tag`. -/
  seccompNeedsGlobal : Bool
  /-- `snappy_udev_init(...) == 0`. -/
  udevInitOk : Bool
  deriving DecidableEq, Repr

/-- `ESRCH`: the distinguished "no such process / not found" result of
the preserved-namespace join attempts. -/
def ESRCH : Nat := 3

/-! ### Privilege transition steps of `main` -/

/-- Lines 210-216: the temporary privilege drop after namespace setup.
`setegid(real_gid)` then `seteuid(real_uid)`, each fatal on failure,
followed by the two fatal verification checks
(`real_gid != 0 && geteuid() == 0` and `real_uid != 0 && getegid() == 0`). -/
def tempDropStep (realGid realUid : Nat) (s : PState) : Step :=
  match setegidSem realGid s.creds with
  | none => Step.fatal (s.emit (Event.setEgid realGid))
  | some c1 =>
    let s1 : PState := { creds := c1, env := s.env, trace := s.trace ++ [Event.setEgid realGid] }
    match seteuidSem realUid c1 with
    | none => Step.fatal (s1.emit (Event.setEuid realUid))
    | some c2 =>
      let s2 : PState := { creds := c2, env := s1.env, trace := s1.trace ++ [Event.setEuid realUid] }
      if (realGid ≠ 0 ∧ c2.euid = 0) ∨ (realUid ≠ 0 ∧ c2.egid = 0) then Step.fatal s2
      else Step.ok s2

/-- Lines 244-245: the verification after the permanent drop; `true`
means one of the two fatal checks fires. -/
def permDropCheckFails (realUid realGid : Nat) (c : Creds) : Bool :=
  (realGid != 0 && (c.ruid == 0 || c.euid == 0)) ||
  (realUid != 0 && (c.rgid == 0 || c.egid == 0))

/-- Lines 237-246: the permanent privilege drop, taken only when the
effective uid is still 0: `setgid(real_gid)` then `setuid(real_uid)`,
each fatal on failure, then the post-drop verification. -/
def permDropStep (realUid realGid : Nat) (s : PState) : Step :=
  if s.creds.euid = 0 then
    match setgidSem realGid s.creds with
    | none => Step.fatal (s.emit (Event.setGid realGid))
    | some c1 =>
      let s1 : PState := { creds := c1, env := s.env, trace := s.trace ++ [Event.setGid realGid] }
      match setuidSem realUid c1 with
      | none => Step.fatal (s1.emit (Event.setUid realUid))
      | some c2 =>
        let s2 : PState := { creds := c2, env := s1.env, trace := s1.trace ++ [Event.setUid realUid] }
        if permDropCheckFails realUid realGid c2 then Step.fatal s2
        else Step.ok s2
  else Step.ok s

/-! ### `enter_non_classic_execution_environment` -/

/-- Lines 283-299: reassociation with pid 1's mount namespace and the
global-lock-protected one-time initialization. -/
def nsGlobalPhase (s : PState) : PState :=
  s.emits [Event.reassociatePid1, Event.lockGlobal, Event.ensureSharedSnapMount,
           Event.initMountNsDir, Event.unlockGlobal,
           Event.openSnapUpdateNs, Event.openSnapDiscardNs]

/-- Lines 302-330: per-snap lock, open of the namespace group, mode
classification, helper fork, join attempt, and (on ESRCH) the
unshare / populate / preserve construction sequence. -/
def perSnapPhase (w : World) (snap : String) (s : PState) : Step :=
  let s1 := s.emits [Event.lockSnap snap, Event.openMountNs snap, Event.classifyDistro,
                     Event.forkHelper, Event.joinPreservedNs snap]
  if w.joinNsResult = ESRCH then
    let s2 := s1.emit Event.unshareNs
    if w.unshareOk then
      let s3 := s2.emit (Event.populateMountNs snap)
      if w.populateOk then Step.ok (s3.emit (Event.preserveMountNs snap))
      else Step.fatal s3
    else Step.fatal s2
  else Step.ok s1

/-- Lines 338-360: the per-user mount namespace sequence, run only for a
non-root real user; preservation is gated by the experimental feature. -/
def perUserPhase (w : World) (snap : String) (realUid : Nat) (s : PState) : Step :=
  if realUid ≠ 0 then
    let s1 := s.emit (Event.joinPerUserNs snap)
    if w.joinPerUserNsResult = ESRCH then
      let s2 := s1.emit Event.unsharePerUserNs
      if w.perUserUnshareOk then
        let s3 := s2.emit (Event.setupUserMounts snap)
        if w.setupUserMountsOk then
          if w.perUserFeature then Step.ok (s3.emit (Event.preservePerUserNs snap))
          else Step.ok s3
        else Step.fatal s3
      else Step.fatal s2
    else Step.ok s1
  else Step.ok s

/-- Lines 364-375: freezer cgroup association, with the temporary egid
raise (under LXD) before and the re-drop after. -/
def cgroupPhase (snap : String) (realGid savedGid : Nat) (s : PState) : Step :=
  let raised : Step :=
    if s.creds.egid ≠ 0 ∧ savedGid = 0 then
      match setegidSem 0 s.creds with
      | none => Step.fatal (s.emit (Event.setEgid 0))
      | some c => Step.ok { creds := c, env := s.env, trace := s.trace ++ [Event.setEgid 0] }
    else Step.ok s
  raised.andThen fun t =>
    let t1 := t.emit (Event.cgroupFreezerJoin snap)
    if t1.creds.euid = 0 ∧ realGid ≠ 0 then
      match setegidSem realGid t1.creds with
      | none => Step.fatal (t1.emit (Event.setEgid realGid))
      | some c => Step.ok { creds := c, env := t1.env, trace := t1.trace ++ [Event.setEgid realGid] }
    else Step.ok t1

/-- The fixed PATH value snap-confine installs (lines 387-396). -/
def corePATH : String :=
  "/usr/local/sbin:/usr/local/bin:/usr/sbin:/usr/bin:/sbin:/bin:/usr/games:/usr/local/games"

/-- Lines 386-410: reset PATH, redirect TMPDIR and TEMPDIR to /tmp, and
run the udev/device-cgroup epilogue. -/
def envFinalizePhase (tag : String) (udevInitOk : Bool) (s : PState) : PState :=
  let e1 := setenvL s.env "PATH" corePATH
  let e2 := setenvL e1 "TMPDIR" "/tmp"
  let e3 := setenvL e2 "TEMPDIR" "/tmp"
  let s1 : PState := { creds := s.creds, env := e3, trace := s.trace }
  let s2 := s1.emit (Event.snappyUdevInit tag)
  let s3 := if udevInitOk then s2.emit (Event.setupDevicesCgroup tag) else s2
  s3.emit Event.snappyUdevCleanup

/-- Lines 269-411: `enter_non_classic_execution_environment`. -/
def enter_non_classic_execution_environment (w : World) (snap tag : String)
    (realUid realGid savedGid : Nat) (s : PState) : Step :=
  (perSnapPhase w snap (nsGlobalPhase s)).andThen fun s1 =>
    (perUserPhase w snap realUid
        (s1.emits [Event.fixupPermissions, Event.fixupUdev])).andThen fun s2 =>
      (cgroupPhase snap realGid savedGid s2).andThen fun s3 =>
        Step.ok (envFinalizePhase tag w.udevInitOk
          ((s3.emit (Event.unlockSnap snap)).emit Event.closeMountNs))

/-! ### `main` -/

/-- Lines 155-162: `main`'s early temporary drop of group privileges,
taken when running setgid root on behalf of a non-root group. -/
def earlyGidDropStep (w : World) (s : PState) : Step :=
  if w.creds0.egid = 0 ∧ w.creds0.rgid ≠ 0 then
    match setegidSem w.creds0.rgid s.creds with
    | none => Step.fatal (s.emit (Event.setEgid w.creds0.rgid))
    | some c => Step.ok { s with
                          creds := c,
                          trace := s.trace ++ [Event.setEgid w.creds0.rgid] }
  else Step.ok s

/-- The cookie obtained at lines 171-179: the snapd call is made only
when the security tag is not a hook tag, so for hooks it stays NULL. -/
def cookieValF (w : World) : Option String :=
  if ¬ w.isHookTag then w.cookieFromSnapd else none

/-- Continue with `f` unless the previous fragment already died. -/
def stepToRun (a : Step) (f : PState → Run) : Run :=
  match a with
  | Step.fatal sf => Run.fatal sf
  | Step.ok s => f s

@[simp] theorem stepToRun_ok (s : PState) (f : PState → Run) :
    stepToRun (Step.ok s) f = f s := rfl

@[simp] theorem stepToRun_fatal (s : PState) (f : PState → Run) :
    stepToRun (Step.fatal s) f = Run.fatal s := rfl

/-- Lines 219-256: the tail of `main` common to all confinement modes:
user data setup, AppArmor profile transition, seccomp filter loading,
cookie export, permanent privilege drop and the final `execv`. -/
def mainTail (w : World) (s4 : PState) : Run :=
  let s5 := s4.emit Event.setupUserData
  let s6 := s5.emit (Event.aaChangeOnexec w.securityTag)
  let s7 := s6.emit (Event.applySeccomp w.securityTag)
  let s8 := if w.seccompNeedsGlobal then s7.emit Event.applyGlobalSeccomp else s7
  let s9 : PState :=
    match cookieValF w with
    | some v => { s8 with
                  env := setenvL (setenvL s8.env "SNAP_COOKIE" v) "SNAP_CONTEXT" v }
    | none => s8
  match permDropStep w.creds0.ruid w.creds0.rgid s9 with
  | Step.fatal sf => Run.fatal sf
  | Step.ok s10 => Run.execed w.executable s10

/-- Lines 111-256: `main`.  Validation failures and `die()` calls give
`Run.fatal` (exit status 1); the version query returns 0; otherwise the
run ends by `execv`-ing the target executable. -/
def main (w : World) : Run :=
  let s0 : PState := { creds := w.creds0, env := w.hostEnv, trace := [] }
  if ¬ w.argsParseOk then Run.fatal s0
  else if w.isVersionQuery then Run.exited 0 s0
  else
    match getenvL w.hostEnv "SNAP_INSTANCE_NAME" with
    | none => Run.fatal s0
    | some snap =>
      if ¬ w.instanceNameValid then Run.fatal s0
      else if ¬ w.securityTagValid then Run.fatal s0
      else if ¬ w.baseSnapValid then Run.fatal s0
      else
        -- lines 158-162: temporarily drop group privileges
        stepToRun (earlyGidDropStep w s0) fun s1 =>
          -- lines 166-168: refuse to run without root unless overridden
          if s1.creds.euid ≠ 0 ∧ ¬ w.snapConfineNoRoot then Run.fatal s1
          else
            -- lines 171-179: fetch the snapd cookie unless running a hook
            let s2 := if ¬ w.isHookTag then s1.emit (Event.cookieGet snap) else s1
            -- lines 181-192: refuse to run unconfined with elevated permissions
            if ¬ w.aaIsConfined ∧ ¬ w.aaNotApplicable ∧ w.creds0.ruid ≠ 0 ∧
                s2.creds.euid = 0 then Run.fatal s2
            else
              -- lines 204-217
              let branch : Step :=
                if s2.creds.euid = 0 then
                  let entered : Step :=
                    if w.classicConfinement then Step.ok s2
                    else enter_non_classic_execution_environment w snap w.securityTag
                           w.creds0.ruid w.creds0.rgid w.creds0.sgid s2
                  entered.andThen fun s3 => tempDropStep w.creds0.rgid w.creds0.ruid s3
                else Step.ok s2
              stepToRun branch (mainTail w)

/-! ### Pure characterization of the phases

For each fragment we define the exact list of events it appends and the
condition under which it dies, then prove a closed-form equation.  All
later theorems are read off these equations. -/

def nsGlobalTrace : List Event :=
  [Event.reassociatePid1, Event.lockGlobal, Event.ensureSharedSnapMount,
   Event.initMountNsDir, Event.unlockGlobal,
   Event.openSnapUpdateNs, Event.openSnapDiscardNs]

def perSnapFatal (w : World) : Prop :=
  w.joinNsResult = ESRCH ∧ (w.unshareOk = false ∨ w.populateOk = false)

instance (w : World) : Decidable (perSnapFatal w) := by
  unfold perSnapFatal; infer_instance

def perSnapHead (snap : String) : List Event :=
  [Event.openMountNs snap, Event.classifyDistro, Event.forkHelper,
   Event.joinPreservedNs snap]

def perSnapTrace (w : World) (snap : String) : List Event :=
  Event.lockSnap snap :: perSnapHead snap ++
  (if w.joinNsResult = ESRCH then
    Event.unshareNs ::
      (if w.unshareOk then
        Event.populateMountNs snap ::
          (if w.populateOk then [Event.preserveMountNs snap] else [])
      else [])
  else [])

def perUserFatal (w : World) (realUid : Nat) : Prop :=
  realUid ≠ 0 ∧ w.joinPerUserNsResult = ESRCH ∧
    (w.perUserUnshareOk = false ∨ w.setupUserMountsOk = false)

instance (w : World) (realUid : Nat) : Decidable (perUserFatal w realUid) := by
  unfold perUserFatal; infer_instance

def perUserTrace (w : World) (snap : String) (realUid : Nat) : List Event :=
  if realUid ≠ 0 then
    Event.joinPerUserNs snap ::
      (if w.joinPerUserNsResult = ESRCH then
        Event.unsharePerUserNs ::
          (if w.perUserUnshareOk then
            Event.setupUserMounts snap ::
              (if w.setupUserMountsOk then
                (if w.perUserFeature then [Event.preservePerUserNs snap] else [])
              else [])
          else [])
      else [])
  else []

def cgroupFatal (c : Creds) (savedGid : Nat) : Prop :=
  c.egid ≠ 0 ∧ savedGid = 0 ∧ ¬ (c.euid = 0 ∨ 0 = c.rgid ∨ 0 = c.sgid)

instance (c : Creds) (savedGid : Nat) : Decidable (cgroupFatal c savedGid) := by
  unfold cgroupFatal; infer_instance

def cgroupTrace (c : Creds) (snap : String) (realGid savedGid : Nat) : List Event :=
  (if c.egid ≠ 0 ∧ savedGid = 0 then [Event.setEgid 0] else []) ++
  (if cgroupFatal c savedGid then [] else
    Event.cgroupFreezerJoin snap ::
      (if c.euid = 0 ∧ realGid ≠ 0 then [Event.setEgid realGid] else []))

/-- Effective gid after the cgroup phase (the other ids are unchanged). -/
def cgroupCredsOut (c : Creds) (realGid savedGid : Nat) : Creds :=
  let c1 := if c.egid ≠ 0 ∧ savedGid = 0 then { c with egid := 0 } else c
  if c1.euid = 0 ∧ realGid ≠ 0 then { c1 with egid := realGid } else c1

def envFinalizeTrace (tag : String) (udevInitOk : Bool) : List Event :=
  Event.snappyUdevInit tag ::
    ((if udevInitOk then [Event.setupDevicesCgroup tag] else []) ++ [Event.snappyUdevCleanup])

def envFinalizeEnv (env : List (String × String)) : List (String × String) :=
  setenvL (setenvL (setenvL env "PATH" corePATH) "TMPDIR" "/tmp") "TEMPDIR" "/tmp"

/-! ### Closed form of `enter_non_classic_execution_environment` -/

def enterFatal (w : World) (realUid savedGid : Nat) (c : Creds) : Prop :=
  perSnapFatal w ∨ perUserFatal w realUid ∨ cgroupFatal c savedGid

instance (w : World) (realUid savedGid : Nat) (c : Creds) :
    Decidable (enterFatal w realUid savedGid c) := by
  unfold enterFatal; infer_instance

/-- Events after the per-user namespace work (when it did not die):
cgroup association, per-snap unlock, close, environment epilogue. -/
def enterAfterUserTrace (w : World) (snap tag : String) (realUid realGid savedGid : Nat)
    (c : Creds) : List Event :=
  if perUserFatal w realUid then [] else
    cgroupTrace c snap realGid savedGid ++
    (if cgroupFatal c savedGid then [] else
      Event.unlockSnap snap :: Event.closeMountNs ::
        envFinalizeTrace tag w.udevInitOk)

/-- Events after the per-snap join-or-construct work (when it did not
die): fixups, the per-user sequence, and everything that follows. -/
def enterAfterSnapTrace (w : World) (snap tag : String) (realUid realGid savedGid : Nat)
    (c : Creds) : List Event :=
  if perSnapFatal w then [] else
    Event.fixupPermissions :: Event.fixupUdev :: perUserTrace w snap realUid ++
    enterAfterUserTrace w snap tag realUid realGid savedGid c

def enterTraceF (w : World) (snap tag : String) (realUid realGid savedGid : Nat)
    (c : Creds) : List Event :=
  nsGlobalTrace ++ perSnapTrace w snap ++
  enterAfterSnapTrace w snap tag realUid realGid savedGid c

/-! ### Closed form of a completed `main` run -/

def earlyEgids (w : World) : List Event :=
  if w.creds0.egid = 0 ∧ w.creds0.rgid ≠ 0 then [Event.setEgid w.creds0.rgid] else []

def credsAfterEarly (w : World) : Creds :=
  if w.creds0.egid = 0 ∧ w.creds0.rgid ≠ 0 then { w.creds0 with egid := w.creds0.rgid }
  else w.creds0

def cookieTrace (w : World) (snap : String) : List Event :=
  if w.isHookTag then [] else [Event.cookieGet snap]

/-- Credentials after the permanent drop: everything set to the real
invoker's ids. -/
def permCreds (w : World) : Creds :=
  { ruid := w.creds0.ruid, euid := w.creds0.ruid, suid := w.creds0.ruid,
    rgid := w.creds0.rgid, egid := w.creds0.rgid, sgid := w.creds0.rgid }

/-- Events of `mainTail`, given the effective uid it starts with. -/
def mainTailTrace (w : World) (euid : Nat) : List Event :=
  Event.setupUserData :: Event.aaChangeOnexec w.securityTag ::
    Event.applySeccomp w.securityTag ::
  ((if w.seccompNeedsGlobal then [Event.applyGlobalSeccomp] else []) ++
   (if euid = 0 then [Event.setGid w.creds0.rgid, Event.setUid w.creds0.ruid] else []))

/-- Environment after `mainTail` (cookie export). -/
def mainTailEnv (w : World) (env : List (String × String)) : List (String × String) :=
  match cookieValF w with
  | some v => setenvL (setenvL env "SNAP_COOKIE" v) "SNAP_CONTEXT" v
  | none => env

/-- The events of a run of `main` that reaches `execv`, in order. -/
def mainOkTrace (w : World) (snap : String) : List Event :=
  earlyEgids w ++ cookieTrace w snap ++
  (if w.creds0.euid = 0 then
     (if w.classicConfinement then []
      else enterTraceF w snap w.securityTag w.creds0.ruid w.creds0.rgid w.creds0.sgid
             (credsAfterEarly w)) ++
     [Event.setEgid w.creds0.rgid, Event.setEuid w.creds0.ruid]
   else []) ++
  mainTailTrace w (if w.creds0.euid = 0 then w.creds0.ruid else w.creds0.euid)

/-- The environment of a run of `main` that reaches `execv`. -/
def mainOkEnv (w : World) : List (String × String) :=
  mainTailEnv w
    (if w.creds0.euid = 0 ∧ w.classicConfinement = false
     then envFinalizeEnv w.hostEnv else w.hostEnv)

/-- A benign world for concrete runs: confined, non-root invoker,
everything external succeeds. -/
def demoWorld : World :=
  { argsParseOk := true, isVersionQuery := false, instanceNameValid := true,
    securityTag := "snap.foo.app", securityTagValid := true,
    executable := "/usr/bin/foo", baseSnapValid := true,
    classicConfinement := false,
    creds0 := { ruid := 1000, euid := 0, suid := 0, rgid := 1000, egid := 0, sgid := 0 },
    hostEnv := [("SNAP_INSTANCE_NAME", "foo"), ("TMPDIR", "/host/tmp")],
    snapConfineNoRoot := false, aaIsConfined := true, aaNotApplicable := false,
    isHookTag := false, cookieFromSnapd := some "c00kie", joinNsResult := 0,
    unshareOk := true, populateOk := true, joinPerUserNsResult := 0,
    perUserUnshareOk := true, setupUserMountsOk := true, perUserFeature := false,
    isNormalMode := true, seccompNeedsGlobal := false, udevInitOk := false }

/-- `demoWorld`, but unconfined on an AppArmor-capable system. -/
def demoWorldUnconfined : World :=
  { demoWorld with aaIsConfined := false }

/-- Initial process state corresponding to `demoWorld`. -/
def demoState : PState :=
  { creds := { ruid := 1000, euid := 0, suid := 0, rgid := 1000, egid := 0, sgid := 0 },
    env := [("SNAP_INSTANCE_NAME", "foo"), ("TMPDIR", "/host/tmp")], trace := [] }

/-! ### C4: the per-target lock interval -/

/-- Operations on the target's namespace/cgroup state that C4 requires
to happen only under the per-target lock. -/
def targetNsOp : Event → Bool
  | Event.joinPreservedNs _ => true
  | Event.unshareNs => true
  | Event.populateMountNs _ => true
  | Event.preserveMountNs _ => true
  | Event.joinPerUserNs _ => true
  | Event.unsharePerUserNs => true
  | Event.setupUserMounts _ => true
  | Event.preservePerUserNs _ => true
  | Event.cgroupFreezerJoin _ => true
  | _ => false

/-- Everything the per-snap phase does after taking the lock. -/
def perSnapRest (w : World) (snap : String) : List Event :=
  perSnapHead snap ++
  (if w.joinNsResult = ESRCH then
    Event.unshareNs ::
      (if w.unshareOk then
        Event.populateMountNs snap ::
          (if w.populateOk then [Event.preserveMountNs snap] else [])
      else [])
  else [])

/-! ### Event classes for the policy-ordering and cookie claims -/

/-- MAC transition, seccomp loading and the final irreversible drop. -/
def policyOrFinalEv : Event → Bool
  | Event.aaChangeOnexec _ => true
  | Event.applySeccomp _ => true
  | Event.applyGlobalSeccomp => true
  | Event.setGid _ => true
  | Event.setUid _ => true
  | _ => false

/-- Events that `enter_non_classic_execution_environment` can emit. -/
def enterPhaseEv : Event → Bool
  | Event.aaChangeOnexec _ => false
  | Event.applySeccomp _ => false
  | Event.applyGlobalSeccomp => false
  | Event.setGid _ => false
  | Event.setUid _ => false
  | Event.setEuid _ => false
  | Event.cookieGet _ => false
  | Event.setupUserData => false
  | _ => true

theorem setegidSem_rgid (c : Creds) :
    setegidSem c.rgid c = some { c with egid := c.rgid } := by
  simp [setegidSem]

theorem setegidSem_root (g : Nat) (c : Creds) (h : c.euid = 0) :
    setegidSem g c = some { c with egid := g } := by
  simp [setegidSem, h]

theorem seteuidSem_root (u : Nat) (c : Creds) (h : c.euid = 0) :
    seteuidSem u c = some { c with euid := u } := by
  simp [seteuidSem, h]

theorem setgidSem_root (g : Nat) (c : Creds) (h : c.euid = 0) :
    setgidSem g c = some { c with rgid := g, egid := g, sgid := g } := by
  simp [setgidSem, h]

theorem setuidSem_root (u : Nat) (c : Creds) (h : c.euid = 0) :
    setuidSem u c = some { c with ruid := u, euid := u, suid := u } := by
  simp [setuidSem, h]

theorem getenvL_setenvL_same (env : List (String × String)) (n v : String) :
    getenvL (setenvL env n v) n = some v := by
  induction env with
  | nil => simp [setenvL, getenvL]
  | cons p rest ih =>
    by_cases h : p.1 = n
    · simp [setenvL, getenvL, h]
    · simp [setenvL, getenvL, h, ih]

theorem getenvL_setenvL_other (env : List (String × String)) (n v m : String)
    (h : m ≠ n) : getenvL (setenvL env n v) m = getenvL env m := by
  have h' : n ≠ m := fun hh => h hh.symm
  induction env with
  | nil => simp [setenvL, getenvL, h']
  | cons p rest ih =>
    by_cases hp : p.1 = n
    · simp [setenvL, getenvL, hp, h']
    · by_cases hm : p.1 = m
      · simp [setenvL, getenvL, hp, hm, h]
      · simp [setenvL, getenvL, hp, hm, ih]

theorem nsGlobalPhase_eq (s : PState) : nsGlobalPhase s = s.emits nsGlobalTrace := rfl

theorem perSnapPhase_eq (w : World) (snap : String) (s : PState) :
    perSnapPhase w snap s =
      if perSnapFatal w then
        Step.fatal { s with trace := s.trace ++ perSnapTrace w snap }
      else
        Step.ok { s with trace := s.trace ++ perSnapTrace w snap } := by
  by_cases hj : w.joinNsResult = ESRCH
  · cases hu : w.unshareOk
    · simp [perSnapPhase, perSnapFatal, perSnapTrace, perSnapHead, hj, hu,
            PState.emit, PState.emits]
    · cases hp : w.populateOk
      · simp [perSnapPhase, perSnapFatal, perSnapTrace, perSnapHead, hj, hu, hp,
              PState.emit, PState.emits]
      · simp [perSnapPhase, perSnapFatal, perSnapTrace, perSnapHead, hj, hu, hp,
              PState.emit, PState.emits]
  · simp [perSnapPhase, perSnapFatal, perSnapTrace, perSnapHead, hj, PState.emit, PState.emits]

theorem perUserPhase_eq (w : World) (snap : String) (realUid : Nat) (s : PState) :
    perUserPhase w snap realUid s =
      if perUserFatal w realUid then
        Step.fatal { s with trace := s.trace ++ perUserTrace w snap realUid }
      else
        Step.ok { s with trace := s.trace ++ perUserTrace w snap realUid } := by
  by_cases hr : realUid ≠ 0
  · by_cases hj : w.joinPerUserNsResult = ESRCH
    · cases hu : w.perUserUnshareOk
      · simp [perUserPhase, perUserFatal, perUserTrace, hr, hj, hu, PState.emit]
      · cases hm : w.setupUserMountsOk
        · simp [perUserPhase, perUserFatal, perUserTrace, hr, hj, hu, hm, PState.emit]
        · cases hf : w.perUserFeature
          · simp [perUserPhase, perUserFatal, perUserTrace, hr, hj, hu, hm, hf, PState.emit]
          · simp [perUserPhase, perUserFatal, perUserTrace, hr, hj, hu, hm, hf, PState.emit]
    · simp [perUserPhase, perUserFatal, perUserTrace, hr, hj, PState.emit]
  · simp [perUserPhase, perUserFatal, perUserTrace, hr, PState.emit]

theorem cgroupPhase_eq (snap : String) (realGid savedGid : Nat) (s : PState) :
    cgroupPhase snap realGid savedGid s =
      if cgroupFatal s.creds savedGid then
        Step.fatal { s with trace := s.trace ++ cgroupTrace s.creds snap realGid savedGid }
      else
        Step.ok { s with
                  creds := cgroupCredsOut s.creds realGid savedGid,
                  trace := s.trace ++ cgroupTrace s.creds snap realGid savedGid } := by
  by_cases h1 : s.creds.egid ≠ 0 ∧ savedGid = 0
  · obtain ⟨heg, hsg⟩ := h1
    subst hsg
    by_cases h2 : s.creds.euid = 0 ∨ 0 = s.creds.rgid ∨ 0 = s.creds.sgid
    · have hf : ¬ cgroupFatal s.creds 0 := fun h => h.2.2 h2
      by_cases h3 : s.creds.euid = 0 ∧ realGid ≠ 0
      · simp [cgroupPhase, cgroupTrace, cgroupCredsOut, setegidSem,
              heg, h2, h3, hf, PState.emit, Step.andThen]
      · simp [cgroupPhase, cgroupTrace, cgroupCredsOut, setegidSem,
              heg, h2, h3, hf, PState.emit, Step.andThen]
    · have hf : cgroupFatal s.creds 0 := ⟨heg, rfl, h2⟩
      simp [cgroupPhase, cgroupTrace, cgroupCredsOut, setegidSem,
            heg, h2, hf, PState.emit, Step.andThen]
  · have hf : ¬ cgroupFatal s.creds savedGid := fun h => h1 ⟨h.1, h.2.1⟩
    by_cases h3 : s.creds.euid = 0 ∧ realGid ≠ 0
    · simp [cgroupPhase, cgroupTrace, cgroupCredsOut, setegidSem,
            h1, h3, hf, PState.emit, Step.andThen]
    · simp [cgroupPhase, cgroupTrace, cgroupCredsOut, setegidSem,
            h1, h3, hf, PState.emit, Step.andThen]

theorem envFinalizePhase_eq (tag : String) (u : Bool) (s : PState) :
    envFinalizePhase tag u s =
      { s with env := envFinalizeEnv s.env,
               trace := s.trace ++ envFinalizeTrace tag u } := by
  cases u <;> simp [envFinalizePhase, envFinalizeEnv, envFinalizeTrace, PState.emit]

theorem enter_eq (w : World) (snap tag : String) (realUid realGid savedGid : Nat)
    (s : PState) :
    enter_non_classic_execution_environment w snap tag realUid realGid savedGid s =
      if enterFatal w realUid savedGid s.creds then
        Step.fatal { s with
                     trace := s.trace ++ enterTraceF w snap tag realUid realGid savedGid s.creds }
      else
        Step.ok { s with
                  creds := cgroupCredsOut s.creds realGid savedGid,
                  env := envFinalizeEnv s.env,
                  trace := s.trace ++ enterTraceF w snap tag realUid realGid savedGid s.creds } := by
  unfold enter_non_classic_execution_environment
  rw [nsGlobalPhase_eq]
  by_cases h1 : perSnapFatal w
  · rw [perSnapPhase_eq]
    simp [h1, enterFatal, enterTraceF, enterAfterSnapTrace, enterAfterUserTrace]
  · rw [perSnapPhase_eq]
    simp only [h1, if_false]
    rw [Step.andThen_ok]
    by_cases h2 : perUserFatal w realUid
    · rw [perUserPhase_eq]
      simp [h1, h2, enterFatal, enterTraceF, enterAfterSnapTrace, enterAfterUserTrace]
    · rw [perUserPhase_eq]
      simp only [h2, if_false]
      rw [Step.andThen_ok]
      by_cases h3 : cgroupFatal (s.creds) savedGid
      · rw [cgroupPhase_eq]
        simp [h1, h2, h3, enterFatal, enterTraceF, enterAfterSnapTrace, enterAfterUserTrace]
      · rw [cgroupPhase_eq]
        simp only [PState.emits_creds, h3, if_false]
        rw [Step.andThen_ok]
        rw [envFinalizePhase_eq]
        simp [h1, h2, h3, enterFatal, enterTraceF, enterAfterSnapTrace, enterAfterUserTrace]

/-! ### Closed forms of the privilege-transition steps -/

theorem tempDropStep_root_eq (rg ru : Nat) (s : PState) (h : s.creds.euid = 0) :
    tempDropStep rg ru s =
      if (rg ≠ 0 ∧ ru = 0) ∨ (ru ≠ 0 ∧ rg = 0) then
        Step.fatal { s with
                     creds := { s.creds with egid := rg, euid := ru },
                     trace := s.trace ++ [Event.setEgid rg, Event.setEuid ru] }
      else
        Step.ok { s with
                  creds := { s.creds with egid := rg, euid := ru },
                  trace := s.trace ++ [Event.setEgid rg, Event.setEuid ru] } := by
  unfold tempDropStep
  simp [setegidSem, seteuidSem, h, PState.emit]

theorem permDropStep_root_eq (ru rg : Nat) (s : PState) (h : s.creds.euid = 0) :
    permDropStep ru rg s =
      if permDropCheckFails ru rg
          { ruid := ru, euid := ru, suid := ru, rgid := rg, egid := rg, sgid := rg } then
        Step.fatal { s with
                     creds := { ruid := ru, euid := ru, suid := ru,
                                rgid := rg, egid := rg, sgid := rg },
                     trace := s.trace ++ [Event.setGid rg, Event.setUid ru] }
      else
        Step.ok { s with
                  creds := { ruid := ru, euid := ru, suid := ru,
                             rgid := rg, egid := rg, sgid := rg },
                  trace := s.trace ++ [Event.setGid rg, Event.setUid ru] } := by
  unfold permDropStep
  simp [setgidSem, setuidSem, h, PState.emit]

theorem permDropStep_skip (ru rg : Nat) (s : PState) (h : s.creds.euid ≠ 0) :
    permDropStep ru rg s = Step.ok s := by
  simp [permDropStep, h]

@[simp] theorem cgroupCredsOut_ruid (c : Creds) (rg sg : Nat) :
    (cgroupCredsOut c rg sg).ruid = c.ruid := by
  simp only [cgroupCredsOut]; split_ifs <;> rfl

@[simp] theorem cgroupCredsOut_euid (c : Creds) (rg sg : Nat) :
    (cgroupCredsOut c rg sg).euid = c.euid := by
  simp only [cgroupCredsOut]; split_ifs <;> rfl

@[simp] theorem cgroupCredsOut_suid (c : Creds) (rg sg : Nat) :
    (cgroupCredsOut c rg sg).suid = c.suid := by
  simp only [cgroupCredsOut]; split_ifs <;> rfl

@[simp] theorem cgroupCredsOut_rgid (c : Creds) (rg sg : Nat) :
    (cgroupCredsOut c rg sg).rgid = c.rgid := by
  simp only [cgroupCredsOut]; split_ifs <;> rfl

@[simp] theorem cgroupCredsOut_sgid (c : Creds) (rg sg : Nat) :
    (cgroupCredsOut c rg sg).sgid = c.sgid := by
  simp only [cgroupCredsOut]; split_ifs <;> rfl

/-! ### What events each fragment can emit -/

theorem mem_perSnapTrace (w : World) (snap : String) (e : Event)
    (h : e ∈ perSnapTrace w snap) :
    e = Event.lockSnap snap ∨ e = Event.openMountNs snap ∨ e = Event.classifyDistro ∨
    e = Event.forkHelper ∨ e = Event.joinPreservedNs snap ∨ e = Event.unshareNs ∨
    e = Event.populateMountNs snap ∨ e = Event.preserveMountNs snap := by
  by_cases hj : w.joinNsResult = ESRCH
  · cases hu : w.unshareOk <;> cases hp : w.populateOk <;>
      (simp [perSnapTrace, perSnapHead, hj, hu, hp] at h; tauto)
  · simp [perSnapTrace, perSnapHead, hj] at h; tauto

theorem mem_perUserTrace (w : World) (snap : String) (ru : Nat) (e : Event)
    (h : e ∈ perUserTrace w snap ru) :
    e = Event.joinPerUserNs snap ∨ e = Event.unsharePerUserNs ∨
    e = Event.setupUserMounts snap ∨ e = Event.preservePerUserNs snap := by
  by_cases hr : ru ≠ 0
  · by_cases hj : w.joinPerUserNsResult = ESRCH
    · cases hu : w.perUserUnshareOk <;> cases hm : w.setupUserMountsOk <;>
        cases hf : w.perUserFeature <;>
        (simp [perUserTrace, hr, hj, hu, hm, hf] at h; tauto)
    · simp [perUserTrace, hr, hj] at h; tauto
  · simp [perUserTrace, hr] at h

theorem mem_cgroupTrace (c : Creds) (snap : String) (rg sg : Nat) (e : Event)
    (h : e ∈ cgroupTrace c snap rg sg) :
    e = Event.setEgid 0 ∨ e = Event.cgroupFreezerJoin snap ∨ e = Event.setEgid rg := by
  by_cases h1 : c.egid ≠ 0 ∧ sg = 0 <;> by_cases h2 : cgroupFatal c sg <;>
    by_cases h3 : c.euid = 0 ∧ rg ≠ 0 <;>
    (simp [cgroupTrace, h1, h2, h3] at h; try tauto)

theorem mem_envFinalizeTrace (tag : String) (u : Bool) (e : Event)
    (h : e ∈ envFinalizeTrace tag u) :
    e = Event.snappyUdevInit tag ∨ e = Event.setupDevicesCgroup tag ∨
    e = Event.snappyUdevCleanup := by
  cases u <;> (simp [envFinalizeTrace] at h; tauto)

theorem mem_enterTraceF (w : World) (snap tag : String) (ru rg sg : Nat) (c : Creds)
    (e : Event) (h : e ∈ enterTraceF w snap tag ru rg sg c) :
    e ∈ nsGlobalTrace ∨ e ∈ perSnapTrace w snap ∨ e = Event.fixupPermissions ∨
    e = Event.fixupUdev ∨ e ∈ perUserTrace w snap ru ∨ e ∈ cgroupTrace c snap rg sg ∨
    e = Event.unlockSnap snap ∨ e = Event.closeMountNs ∨
    e ∈ envFinalizeTrace tag w.udevInitOk := by
  by_cases h1 : perSnapFatal w <;> by_cases h2 : perUserFatal w ru <;>
    by_cases h3 : cgroupFatal c sg <;>
    (simp only [enterTraceF, enterAfterSnapTrace, enterAfterUserTrace, h1, h2, h3, if_true, if_false, List.append_nil,
       List.mem_append, List.mem_cons, List.append_assoc, List.cons_append,
       List.not_mem_nil, or_false, false_or] at h; tauto)

@[simp] theorem credsAfterEarly_ruid (w : World) :
    (credsAfterEarly w).ruid = w.creds0.ruid := by
  simp only [credsAfterEarly]; split_ifs <;> rfl

@[simp] theorem credsAfterEarly_euid (w : World) :
    (credsAfterEarly w).euid = w.creds0.euid := by
  simp only [credsAfterEarly]; split_ifs <;> rfl

@[simp] theorem credsAfterEarly_suid (w : World) :
    (credsAfterEarly w).suid = w.creds0.suid := by
  simp only [credsAfterEarly]; split_ifs <;> rfl

@[simp] theorem credsAfterEarly_rgid (w : World) :
    (credsAfterEarly w).rgid = w.creds0.rgid := by
  simp only [credsAfterEarly]; split_ifs <;> rfl

@[simp] theorem credsAfterEarly_sgid (w : World) :
    (credsAfterEarly w).sgid = w.creds0.sgid := by
  simp only [credsAfterEarly]; split_ifs <;> rfl

theorem earlyGidDropStep_eq (w : World) (s : PState) (h : s.creds = w.creds0) :
    earlyGidDropStep w s =
      Step.ok { s with
                creds := credsAfterEarly w,
                trace := s.trace ++ earlyEgids w } := by
  by_cases hc : w.creds0.egid = 0 ∧ w.creds0.rgid ≠ 0
  · simp [earlyGidDropStep, setegidSem, credsAfterEarly, earlyEgids, hc, h]
  · simp only [earlyGidDropStep, credsAfterEarly, earlyEgids, hc, if_false, ite_false]
    rw [← h]
    simp

theorem mainTail_eq (w : World) (s : PState) :
    mainTail w s =
      if s.creds.euid = 0 then
        (if permDropCheckFails w.creds0.ruid w.creds0.rgid (permCreds w) then
          Run.fatal { creds := permCreds w, env := mainTailEnv w s.env,
                      trace := s.trace ++ mainTailTrace w s.creds.euid }
        else
          Run.execed w.executable
            { creds := permCreds w, env := mainTailEnv w s.env,
              trace := s.trace ++ mainTailTrace w s.creds.euid })
      else
        Run.execed w.executable
          { creds := s.creds, env := mainTailEnv w s.env,
            trace := s.trace ++ mainTailTrace w s.creds.euid } := by
  by_cases hEu : s.creds.euid = 0
  · cases hSG : w.seccompNeedsGlobal <;> cases hCk : cookieValF w <;>
      by_cases hPF : permDropCheckFails w.creds0.ruid w.creds0.rgid (permCreds w) <;>
      simp [mainTail, mainTailTrace, mainTailEnv, permCreds, hEu, hSG, hCk, hPF,
            permDropStep_root_eq, PState.emit] <;>
      simp [permCreds] at hPF <;> simp [hPF]
  · cases hSG : w.seccompNeedsGlobal <;> cases hCk : cookieValF w <;>
      simp [mainTail, mainTailTrace, mainTailEnv, hEu, hSG, hCk,
            permDropStep_skip, PState.emit]

theorem cookieStep_eq (w : World) (snap : String) (s1 : PState) :
    (if ¬ w.isHookTag then s1.emit (Event.cookieGet snap) else s1) =
      { s1 with trace := s1.trace ++ cookieTrace w snap } := by
  cases hH : w.isHookTag <;> simp [cookieTrace, hH, PState.emit]

/-- After the temporary drop, the rest of a completed root-branch run. -/
theorem tempThenTail_execed (w : World) (X : PState) (p : String) (sOut : PState)
    (hX : X.creds.euid = 0)
    (h : stepToRun (tempDropStep w.creds0.rgid w.creds0.ruid X) (mainTail w)
          = Run.execed p sOut) :
    p = w.executable ∧
    sOut.trace = X.trace ++ [Event.setEgid w.creds0.rgid, Event.setEuid w.creds0.ruid]
                  ++ mainTailTrace w w.creds0.ruid ∧
    sOut.env = mainTailEnv w X.env := by
  rw [tempDropStep_root_eq _ _ _ hX] at h
  by_cases hTF : (w.creds0.rgid ≠ 0 ∧ w.creds0.ruid = 0) ∨
      (w.creds0.ruid ≠ 0 ∧ w.creds0.rgid = 0)
  · simp [hTF] at h
  · simp only [hTF, if_false, ite_false] at h
    rw [stepToRun_ok, mainTail_eq] at h
    by_cases hRu : w.creds0.ruid = 0
    · by_cases hPF : permDropCheckFails 0 w.creds0.rgid (permCreds w)
      · simp [hRu, hPF] at h
      · simp [hRu, hPF] at h
        obtain ⟨h1, h2⟩ := h
        subst h2
        exact ⟨h1.symm, by simp [hRu], by simp⟩
    · simp [hRu] at h
      obtain ⟨h1, h2⟩ := h
      subst h2
      exact ⟨h1.symm, by simp, by simp⟩

/-- Master characterization of every `main` run that reaches `execv`:
the target binary is the parsed executable and the trace and final
environment are the closed-form `mainOkTrace`/`mainOkEnv`. -/
theorem main_execed_eq (w : World) (p : String) (sOut : PState)
    (h : main w = Run.execed p sOut) :
    ∃ snap, getenvL w.hostEnv "SNAP_INSTANCE_NAME" = some snap ∧
      p = w.executable ∧ sOut.trace = mainOkTrace w snap ∧ sOut.env = mainOkEnv w := by
  unfold main at h
  cases hParse : w.argsParseOk
  · simp [hParse] at h
  cases hVer : w.isVersionQuery
  case true => simp [hParse, hVer] at h
  cases hGet : getenvL w.hostEnv "SNAP_INSTANCE_NAME" with
  | none => simp [hParse, hVer, hGet] at h
  | some snap =>
    refine ⟨snap, rfl, ?_⟩
    cases hIV : w.instanceNameValid
    · simp [hParse, hVer, hGet, hIV] at h
    cases hTV : w.securityTagValid
    · simp [hParse, hVer, hGet, hIV, hTV] at h
    cases hBV : w.baseSnapValid
    · simp [hParse, hVer, hGet, hIV, hTV, hBV] at h
    simp only [hParse, hVer, hGet, hIV, hTV, hBV] at h
    rw [earlyGidDropStep_eq w _ rfl] at h
    rw [stepToRun_ok] at h
    simp only [List.nil_append] at h
    rw [cookieStep_eq w snap] at h
    by_cases hRoot : w.creds0.euid = 0
    · simp only [credsAfterEarly_euid, hRoot, PState.emits_creds, ne_eq,
        not_true_eq_false, false_and, if_false, ite_false] at h
      simp only [Bool.false_eq_true, if_false, ite_false, if_true, ite_true, and_true] at h
      by_cases hAA : ¬w.aaIsConfined = true ∧ ¬w.aaNotApplicable = true ∧ ¬w.creds0.ruid = 0
      · simp [hAA] at h
      · rw [if_neg hAA] at h
        cases hClassic : w.classicConfinement with
        | true =>
          rw [hClassic] at h
          simp only [if_true, ite_true, Step.andThen_ok] at h
          obtain ⟨h1, h2, h3⟩ := tempThenTail_execed w _ p sOut (by simp [hRoot]) h
          refine ⟨h1, ?_, ?_⟩
          · rw [h2]; simp [mainOkTrace, hRoot, hClassic]
          · rw [h3]; simp [mainOkEnv, hRoot, hClassic]
        | false =>
          rw [hClassic] at h
          simp only [Bool.false_eq_true, if_false, ite_false] at h
          rw [enter_eq] at h
          by_cases hEF : enterFatal w w.creds0.ruid w.creds0.sgid (credsAfterEarly w)
          · simp [hEF] at h
          · simp only [PState.emits_creds, hEF, if_false, ite_false, Step.andThen_ok] at h
            obtain ⟨h1, h2, h3⟩ := tempThenTail_execed w _ p sOut (by simp [hRoot]) h
            refine ⟨h1, ?_, ?_⟩
            · rw [h2]; simp [mainOkTrace, hRoot, hClassic]
            · rw [h3]; simp [mainOkEnv, hRoot, hClassic]
    · cases hNRB : w.snapConfineNoRoot
      · simp [hRoot, hNRB] at h
      simp [hRoot, hNRB] at h
      rw [mainTail_eq] at h
      simp [hRoot] at h
      obtain ⟨h1, h2⟩ := h
      subst h2
      refine ⟨h1.symm, ?_, ?_⟩
      · simp [mainOkTrace, hRoot]
      · simp [mainOkEnv, hRoot]

/-! ### Environment lookups after finalization -/

theorem getenvL_envFinalizeEnv_PATH (e : List (String × String)) :
    getenvL (envFinalizeEnv e) "PATH" = some corePATH := by
  unfold envFinalizeEnv
  rw [getenvL_setenvL_other _ _ _ _ (by decide),
      getenvL_setenvL_other _ _ _ _ (by decide),
      getenvL_setenvL_same]

theorem getenvL_envFinalizeEnv_TMPDIR (e : List (String × String)) :
    getenvL (envFinalizeEnv e) "TMPDIR" = some "/tmp" := by
  unfold envFinalizeEnv
  rw [getenvL_setenvL_other _ _ _ _ (by decide), getenvL_setenvL_same]

theorem getenvL_envFinalizeEnv_TEMPDIR (e : List (String × String)) :
    getenvL (envFinalizeEnv e) "TEMPDIR" = some "/tmp" := by
  unfold envFinalizeEnv
  rw [getenvL_setenvL_same]

theorem getenvL_envFinalizeEnv_other (e : List (String × String)) (m : String)
    (h1 : m ≠ "PATH") (h2 : m ≠ "TMPDIR") (h3 : m ≠ "TEMPDIR") :
    getenvL (envFinalizeEnv e) m = getenvL e m := by
  unfold envFinalizeEnv
  rw [getenvL_setenvL_other _ _ _ _ h3, getenvL_setenvL_other _ _ _ _ h2,
      getenvL_setenvL_other _ _ _ _ h1]

/-! ### Claim theorems -/

/-- C8: if the SNAP_INSTANCE_NAME environment variable is absent and the
invocation is not a version query, `main` dies (non-zero exit) with an
empty trace: no lock was acquired, no namespace was touched, and no
privileged action was performed. -/
theorem c8_missing_instance_name_fatal (w : World)
    (h1 : getenvL w.hostEnv "SNAP_INSTANCE_NAME" = none)
    (h2 : w.isVersionQuery = false) :
    main w = Run.fatal { creds := w.creds0, env := w.hostEnv, trace := [] } := by
  unfold main
  cases hParse : w.argsParseOk <;> simp [hParse, h1, h2]

/-- Witness for C8 at a concrete world. -/
theorem c8_missing_instance_name_fatal_witness :
    main { argsParseOk := true, isVersionQuery := false, instanceNameValid := true,
           securityTag := "snap.foo.app", securityTagValid := true,
           executable := "/usr/bin/foo", baseSnapValid := true,
           classicConfinement := false,
           creds0 := { ruid := 1000, euid := 0, suid := 0,
                       rgid := 1000, egid := 0, sgid := 0 },
           hostEnv := [("HOME", "/home/user")], snapConfineNoRoot := false,
           aaIsConfined := true, aaNotApplicable := false, isHookTag := false,
           cookieFromSnapd := none, joinNsResult := 0, unshareOk := true,
           populateOk := true, joinPerUserNsResult := 0, perUserUnshareOk := true,
           setupUserMountsOk := true, perUserFeature := false, isNormalMode := true,
           seccompNeedsGlobal := false, udevInitOk := false } =
      Run.fatal { creds := { ruid := 1000, euid := 0, suid := 0,
                             rgid := 1000, egid := 0, sgid := 0 },
                  env := [("HOME", "/home/user")], trace := [] } :=
  c8_missing_instance_name_fatal _ rfl rfl

/-- C9: after environment finalization in a non-classic launch, PATH is
the fixed core value and both TMPDIR and TEMPDIR are exactly "/tmp",
regardless of the inherited host environment. -/
theorem c9_env_finalized (w : World) (snap tag : String) (ru rg sg : Nat)
    (s s' : PState)
    (h : enter_non_classic_execution_environment w snap tag ru rg sg s = Step.ok s') :
    getenvL s'.env "PATH" = some corePATH ∧
    getenvL s'.env "TMPDIR" = some "/tmp" ∧
    getenvL s'.env "TEMPDIR" = some "/tmp" := by
  rw [enter_eq] at h
  by_cases hf : enterFatal w ru sg s.creds
  · simp [hf] at h
  · simp only [hf, if_false, ite_false, Step.ok.injEq] at h
    subst h
    exact ⟨getenvL_envFinalizeEnv_PATH _, getenvL_envFinalizeEnv_TMPDIR _,
           getenvL_envFinalizeEnv_TEMPDIR _⟩

/-- C3: the temporary drop (`setegid(real_gid)` then `seteuid(real_uid)`)
either continues with the effective ids exactly equal to the real ids
(both operations recorded once, in order), or dies having attempted each
operation at most once, never retrying. -/
theorem c3_temp_drop_verified (rg ru : Nat) (s : PState) :
    (∀ s', tempDropStep rg ru s = Step.ok s' →
       s'.creds.egid = rg ∧ s'.creds.euid = ru ∧
       s'.trace = s.trace ++ [Event.setEgid rg, Event.setEuid ru]) ∧
    (∀ s', tempDropStep rg ru s = Step.fatal s' →
       s'.trace = s.trace ++ [Event.setEgid rg] ∨
       s'.trace = s.trace ++ [Event.setEgid rg, Event.setEuid ru]) := by
  constructor <;> intro s' h <;> unfold tempDropStep at h
  · cases hg : setegidSem rg s.creds with
    | none => simp only [hg] at h; cases h
    | some c1 =>
      simp only [hg] at h
      have hc1 : c1 = { s.creds with egid := rg } := by
        unfold setegidSem at hg
        split at hg
        · injection hg with hh; exact hh.symm
        · cases hg
      cases hu : seteuidSem ru c1 with
      | none => simp only [hu] at h; cases h
      | some c2 =>
        simp only [hu] at h
        have hc2 : c2 = { c1 with euid := ru } := by
          unfold seteuidSem at hu
          split at hu
          · injection hu with hh; exact hh.symm
          · cases hu
        split at h
        · cases h
        · cases h
          subst hc2; subst hc1
          exact ⟨rfl, rfl, by simp⟩
  · cases hg : setegidSem rg s.creds with
    | none =>
      simp only [hg] at h
      cases h
      exact Or.inl (by simp [PState.emit])
    | some c1 =>
      simp only [hg] at h
      cases hu : seteuidSem ru c1 with
      | none =>
        simp only [hu] at h
        cases h
        exact Or.inr (by simp [PState.emit])
      | some c2 =>
        simp only [hu] at h
        split at h
        · cases h
          exact Or.inr (by simp)
        · cases h

/-- Witness for C3: a successful temporary drop from a root effective
uid ends with the effective ids equal to the real ids. -/
theorem c3_temp_drop_verified_witness :
    (({ creds := { ruid := 7, euid := 7, suid := 0, rgid := 5, egid := 5, sgid := 0 },
        env := [], trace := [Event.setEgid 5, Event.setEuid 7] } : PState).creds.egid = 5) ∧
    (({ creds := { ruid := 7, euid := 7, suid := 0, rgid := 5, egid := 5, sgid := 0 },
        env := [], trace := [Event.setEgid 5, Event.setEuid 7] } : PState).creds.euid = 7) := by
  have h := (c3_temp_drop_verified 5 7
    { creds := { ruid := 7, euid := 0, suid := 0, rgid := 5, egid := 0, sgid := 0 },
      env := [], trace := [] }).1
    { creds := { ruid := 7, euid := 7, suid := 0, rgid := 5, egid := 5, sgid := 0 },
      env := [], trace := [Event.setEgid 5, Event.setEuid 7] } rfl
  exact ⟨h.1, h.2.1⟩

/-- C1: whenever the permanent drop step runs with effective uid 0, it
performs `setgid(real_gid)` then `setuid(real_uid)`, and if it returns,
all six ids equal the invoker's real ids; moreover the post-drop
verification dies whenever, for a non-root invoker, any real or
effective id is still 0. -/
theorem c1_perm_drop (ru rg : Nat) (s : PState) (h : s.creds.euid = 0) :
    (∀ s', permDropStep ru rg s = Step.ok s' →
       s'.creds = { ruid := ru, euid := ru, suid := ru,
                    rgid := rg, egid := rg, sgid := rg } ∧
       s'.trace = s.trace ++ [Event.setGid rg, Event.setUid ru]) ∧
    (∀ c : Creds, ru ≠ 0 → rg ≠ 0 →
       (c.ruid = 0 ∨ c.euid = 0 ∨ c.rgid = 0 ∨ c.egid = 0) →
       permDropCheckFails ru rg c = true) := by
  constructor
  · intro s' hs
    rw [permDropStep_root_eq _ _ _ h] at hs
    split at hs
    · cases hs
    · cases hs
      exact ⟨rfl, rfl⟩
  · intro c h1 h2 h3
    simp only [permDropCheckFails, Bool.or_eq_true, Bool.and_eq_true,
      bne_iff_ne, beq_iff_eq, ne_eq]
    tauto

/-- Witness for C1: a drop to uid 0 / gid 0 (root invoker) leaves all
ids 0, and the verification fires on a leftover effective uid 0 for a
non-root invoker. -/
theorem c1_perm_drop_witness :
    (({ creds := { ruid := 0, euid := 0, suid := 0, rgid := 0, egid := 0, sgid := 0 },
        env := [], trace := [Event.setGid 0, Event.setUid 0] } : PState).creds
      = { ruid := 0, euid := 0, suid := 0, rgid := 0, egid := 0, sgid := 0 }) ∧
    permDropCheckFails 1000 1000
      { ruid := 1000, euid := 0, suid := 0, rgid := 1000, egid := 1000, sgid := 1000 }
      = true := by
  constructor
  · exact ((c1_perm_drop 0 0
      { creds := { ruid := 5, euid := 0, suid := 0, rgid := 7, egid := 7, sgid := 0 },
        env := [], trace := [] } rfl).1 _ rfl).1
  · exact (c1_perm_drop 1000 1000
      { creds := { ruid := 0, euid := 0, suid := 0, rgid := 0, egid := 0, sgid := 0 },
        env := [], trace := [] } rfl).2 _ (by decide) (by decide)
      (Or.inr (Or.inl rfl))

/-- Witness for C9 on a concrete successful non-classic entry. -/
theorem c9_env_finalized_witness :
    getenvL ((enter_non_classic_execution_environment demoWorld "foo" "snap.foo.app"
        1000 1000 0 demoState).state.env) "PATH" = some corePATH ∧
    getenvL ((enter_non_classic_execution_environment demoWorld "foo" "snap.foo.app"
        1000 1000 0 demoState).state.env) "TMPDIR" = some "/tmp" ∧
    getenvL ((enter_non_classic_execution_environment demoWorld "foo" "snap.foo.app"
        1000 1000 0 demoState).state.env) "TEMPDIR" = some "/tmp" :=
  c9_env_finalized demoWorld "foo" "snap.foo.app" 1000 1000 0 demoState _ rfl

/-- C7: on an AppArmor-capable system, an unconfined invocation with a
non-root real uid and root effective uid dies before any lock,
namespace, cgroup or policy action: the only events a trace of such a
run can hold are the early effective-gid drop and the cookie fetch. -/
theorem c7_unconfined_refusal (w : World) (snap : String)
    (hParse : w.argsParseOk = true) (hVer : w.isVersionQuery = false)
    (hGet : getenvL w.hostEnv "SNAP_INSTANCE_NAME" = some snap)
    (hIV : w.instanceNameValid = true) (hTV : w.securityTagValid = true)
    (hBV : w.baseSnapValid = true)
    (hConf : w.aaIsConfined = false) (hNA : w.aaNotApplicable = false)
    (hRu : w.creds0.ruid ≠ 0) (hEu : w.creds0.euid = 0) :
    ∃ sf, main w = Run.fatal sf ∧
      ∀ e ∈ sf.trace, (∃ g, e = Event.setEgid g) ∨ e = Event.cookieGet snap := by
  unfold main
  simp only [hParse, hVer, hGet, hIV, hTV, hBV]
  rw [earlyGidDropStep_eq w _ rfl]
  rw [stepToRun_ok]
  simp only [List.nil_append]
  rw [cookieStep_eq w snap]
  simp only [hParse, hVer, hIV, hTV, hBV, hConf, hNA, hEu, hRu, credsAfterEarly_euid,
    PState.emits_creds, List.nil_append, Bool.not_eq_true, not_true_eq_false,
    not_false_eq_true, Bool.false_eq_true, Bool.true_eq_false, if_false, ite_false,
    if_true, ite_true, ne_eq, not_true, not_false_iff, false_and, and_true, true_and,
    and_self]
  refine ⟨_, rfl, ?_⟩
  intro e he
  simp only [PState.emits_trace] at he
  rcases List.mem_append.mp he with h1 | h2
  · by_cases hc : w.creds0.egid = 0 ∧ w.creds0.rgid ≠ 0
    · simp [earlyEgids, hc] at h1
      exact Or.inl ⟨w.creds0.rgid, h1⟩
    · simp [earlyEgids, hc] at h1
  · cases hH : w.isHookTag
    · simp [cookieTrace, hH] at h2
      exact Or.inr h2
    · simp [cookieTrace, hH] at h2

/-- Witness for C7 at a concrete unconfined world. -/
theorem c7_unconfined_refusal_witness :
    ∃ sf, main demoWorldUnconfined = Run.fatal sf ∧
      ∀ e ∈ sf.trace, (∃ g, e = Event.setEgid g) ∨ e = Event.cookieGet "foo" :=
  c7_unconfined_refusal demoWorldUnconfined "foo" rfl rfl rfl rfl rfl rfl rfl rfl
    (by decide) rfl

/-! ### Locating events inside the non-classic entry trace -/

theorem enter_state_trace (w : World) (snap tag : String) (ru rg sg : Nat) (s : PState) :
    (enter_non_classic_execution_environment w snap tag ru rg sg s).state.trace
      = s.trace ++ enterTraceF w snap tag ru rg sg s.creds := by
  rw [enter_eq]; split_ifs <;> rfl

theorem enter_isFatal_iff (w : World) (snap tag : String) (ru rg sg : Nat) (s : PState) :
    (enter_non_classic_execution_environment w snap tag ru rg sg s).isFatal = true
      ↔ enterFatal w ru sg s.creds := by
  rw [enter_eq]; split_ifs with hf <;> simp [hf]

/-- A per-snap construction event inside the entry trace can only come
from the per-snap segment. -/
theorem construct_ev_mem_perSnap (w : World) (snap tag : String) (ru rg sg : Nat)
    (c : Creds) (e : Event)
    (hcon : e = Event.unshareNs ∨ e = Event.populateMountNs snap ∨
            e = Event.preserveMountNs snap)
    (h : e ∈ enterTraceF w snap tag ru rg sg c) : e ∈ perSnapTrace w snap := by
  rcases mem_enterTraceF w snap tag ru rg sg c e h with h|h|h|h|h|h|h|h|h
  · rcases hcon with rfl|rfl|rfl <;> simp [nsGlobalTrace] at h
  · exact h
  · rcases hcon with rfl|rfl|rfl <;> simp at h
  · rcases hcon with rfl|rfl|rfl <;> simp at h
  · rcases hcon with rfl|rfl|rfl <;>
      (rcases mem_perUserTrace _ _ _ _ h with h|h|h|h <;> simp at h)
  · rcases hcon with rfl|rfl|rfl <;>
      (rcases mem_cgroupTrace _ _ _ _ _ h with h|h|h <;> simp at h)
  · rcases hcon with rfl|rfl|rfl <;> simp at h
  · rcases hcon with rfl|rfl|rfl <;> simp at h
  · rcases hcon with rfl|rfl|rfl <;>
      (rcases mem_envFinalizeTrace _ _ _ h with h|h|h <;> simp at h)

/-- A per-user namespace event inside the entry trace can only come
from the per-user segment. -/
theorem user_ev_mem_perUser (w : World) (snap tag : String) (ru rg sg : Nat)
    (c : Creds) (e : Event)
    (hcon : e = Event.joinPerUserNs snap ∨ e = Event.unsharePerUserNs ∨
            e = Event.setupUserMounts snap ∨ e = Event.preservePerUserNs snap)
    (h : e ∈ enterTraceF w snap tag ru rg sg c) : e ∈ perUserTrace w snap ru := by
  rcases mem_enterTraceF w snap tag ru rg sg c e h with h|h|h|h|h|h|h|h|h
  · rcases hcon with rfl|rfl|rfl|rfl <;> simp [nsGlobalTrace] at h
  · rcases hcon with rfl|rfl|rfl|rfl <;>
      (rcases mem_perSnapTrace _ _ _ h with h|h|h|h|h|h|h|h <;> simp at h)
  · rcases hcon with rfl|rfl|rfl|rfl <;> simp at h
  · rcases hcon with rfl|rfl|rfl|rfl <;> simp at h
  · exact h
  · rcases hcon with rfl|rfl|rfl|rfl <;>
      (rcases mem_cgroupTrace _ _ _ _ _ h with h|h|h <;> simp at h)
  · rcases hcon with rfl|rfl|rfl|rfl <;> simp at h
  · rcases hcon with rfl|rfl|rfl|rfl <;> simp at h
  · rcases hcon with rfl|rfl|rfl|rfl <;>
      (rcases mem_envFinalizeTrace _ _ _ h with h|h|h <;> simp at h)

theorem unshare_mem_perSnapTrace (w : World) (snap : String)
    (h : Event.unshareNs ∈ perSnapTrace w snap) : w.joinNsResult = ESRCH := by
  by_cases hj : w.joinNsResult = ESRCH
  · exact hj
  · simp [perSnapTrace, perSnapHead, hj] at h

theorem populate_mem_perSnapTrace (w : World) (snap : String)
    (h : Event.populateMountNs snap ∈ perSnapTrace w snap) :
    w.joinNsResult = ESRCH ∧ w.unshareOk = true := by
  by_cases hj : w.joinNsResult = ESRCH
  · cases hu : w.unshareOk
    · simp [perSnapTrace, perSnapHead, hj, hu] at h
    · exact ⟨hj, rfl⟩
  · simp [perSnapTrace, perSnapHead, hj] at h

theorem preserve_mem_perSnapTrace (w : World) (snap : String)
    (h : Event.preserveMountNs snap ∈ perSnapTrace w snap) :
    w.joinNsResult = ESRCH ∧ w.unshareOk = true ∧ w.populateOk = true := by
  by_cases hj : w.joinNsResult = ESRCH
  · cases hu : w.unshareOk
    · simp [perSnapTrace, perSnapHead, hj, hu] at h
    · cases hp : w.populateOk
      · simp [perSnapTrace, perSnapHead, hj, hu, hp] at h
      · exact ⟨hj, rfl, rfl⟩
  · simp [perSnapTrace, perSnapHead, hj] at h

theorem preservePerUser_mem_perUserTrace (w : World) (snap : String) (ru : Nat)
    (h : Event.preservePerUserNs snap ∈ perUserTrace w snap ru) :
    ru ≠ 0 ∧ w.joinPerUserNsResult = ESRCH ∧ w.perUserUnshareOk = true ∧
    w.setupUserMountsOk = true ∧ w.perUserFeature = true := by
  by_cases hr : ru ≠ 0
  · by_cases hj : w.joinPerUserNsResult = ESRCH
    · cases hu : w.perUserUnshareOk
      · simp [perUserTrace, hr, hj, hu] at h
      · cases hm : w.setupUserMountsOk
        · simp [perUserTrace, hr, hj, hu, hm] at h
        · cases hf : w.perUserFeature
          · simp [perUserTrace, hr, hj, hu, hm, hf] at h
          · exact ⟨hr, hj, rfl, rfl, rfl⟩
    · simp [perUserTrace, hr, hj] at h
  · simp [perUserTrace, hr] at h

/-- When the per-snap phase dies, the trace stops with it: nothing from
the per-user or later segments appears. -/
theorem enterTraceF_of_perSnapFatal (w : World) (snap tag : String)
    (ru rg sg : Nat) (c : Creds) (hpsf : perSnapFatal w) :
    enterTraceF w snap tag ru rg sg c = nsGlobalTrace ++ perSnapTrace w snap := by
  simp [enterTraceF, enterAfterSnapTrace, hpsf]

/-! ### C5 and C6 -/

/-- C5: the fresh per-snap construction path (unshare, populate,
preserve) is entered iff the preserved-namespace join returned ESRCH;
a failed unshare or populate is fatal; and preservation is recorded
only after populate, never before it. -/
theorem c5_construct_on_esrch (w : World) (snap tag : String) (ru rg sg : Nat)
    (s : PState) (hs : s.trace = []) :
    (w.joinNsResult ≠ ESRCH →
       Event.unshareNs ∉
           (enter_non_classic_execution_environment w snap tag ru rg sg s).state.trace ∧
       Event.populateMountNs snap ∉
           (enter_non_classic_execution_environment w snap tag ru rg sg s).state.trace ∧
       Event.preserveMountNs snap ∉
           (enter_non_classic_execution_environment w snap tag ru rg sg s).state.trace) ∧
    (w.joinNsResult = ESRCH →
       Event.unshareNs ∈
           (enter_non_classic_execution_environment w snap tag ru rg sg s).state.trace) ∧
    (w.joinNsResult = ESRCH → (w.unshareOk = false ∨ w.populateOk = false) →
       (enter_non_classic_execution_environment w snap tag ru rg sg s).isFatal = true) ∧
    (Event.preserveMountNs snap ∈
         (enter_non_classic_execution_environment w snap tag ru rg sg s).state.trace →
       w.joinNsResult = ESRCH ∧ w.unshareOk = true ∧ w.populateOk = true ∧
       ∃ l1 l2,
         (enter_non_classic_execution_environment w snap tag ru rg sg s).state.trace
           = l1 ++ Event.populateMountNs snap :: l2 ∧
         Event.preserveMountNs snap ∈ l2) := by
  have hT := enter_state_trace w snap tag ru rg sg s
  rw [hs, List.nil_append] at hT
  refine ⟨?_, ?_, ?_, ?_⟩
  · intro hj
    refine ⟨?_, ?_, ?_⟩ <;> intro hm <;> rw [hT] at hm
    · exact hj (unshare_mem_perSnapTrace w snap
        (construct_ev_mem_perSnap _ _ _ _ _ _ _ _ (Or.inl rfl) hm))
    · exact hj (populate_mem_perSnapTrace w snap
        (construct_ev_mem_perSnap _ _ _ _ _ _ _ _ (Or.inr (Or.inl rfl)) hm)).1
    · exact hj (preserve_mem_perSnapTrace w snap
        (construct_ev_mem_perSnap _ _ _ _ _ _ _ _ (Or.inr (Or.inr rfl)) hm)).1
  · intro hj
    rw [hT]
    simp [enterTraceF, perSnapTrace, perSnapHead, hj]
  · intro hj hfail
    rw [enter_isFatal_iff]
    exact Or.inl ⟨hj, hfail⟩
  · intro hm
    rw [hT] at hm
    have hps := construct_ev_mem_perSnap _ _ _ _ _ _ _ _ (Or.inr (Or.inr rfl)) hm
    obtain ⟨hj, hu, hp⟩ := preserve_mem_perSnapTrace w snap hps
    refine ⟨hj, hu, hp,
      nsGlobalTrace ++ (Event.lockSnap snap :: perSnapHead snap) ++ [Event.unshareNs],
      Event.preserveMountNs snap :: enterAfterSnapTrace w snap tag ru rg sg s.creds,
      ?_, by simp⟩
    rw [hT]
    simp [enterTraceF, perSnapTrace, perSnapHead, hj, hu, hp]

/-- Witness for C5: with a not-found join result the construction is
attempted in a concrete run. -/
theorem c5_construct_on_esrch_witness :
    Event.unshareNs ∈
      (enter_non_classic_execution_environment { demoWorld with joinNsResult := 3 }
        "foo" "snap.foo.app" 1000 1000 0 demoState).state.trace :=
  (c5_construct_on_esrch { demoWorld with joinNsResult := 3 }
    "foo" "snap.foo.app" 1000 1000 0 demoState rfl).2.1 rfl

/-- C6: the per-user join/construct sequence runs only for a non-root
real uid; a not-found per-user join is followed by unshare and the user
mount setup; and the per-user namespace is preserved exactly when that
construction succeeded and the per-user feature flag is enabled. -/
theorem c6_per_user_namespace (w : World) (snap tag : String) (ru rg sg : Nat)
    (s : PState) (hs : s.trace = []) :
    (ru = 0 →
       Event.joinPerUserNs snap ∉
           (enter_non_classic_execution_environment w snap tag ru rg sg s).state.trace ∧
       Event.unsharePerUserNs ∉
           (enter_non_classic_execution_environment w snap tag ru rg sg s).state.trace ∧
       Event.setupUserMounts snap ∉
           (enter_non_classic_execution_environment w snap tag ru rg sg s).state.trace ∧
       Event.preservePerUserNs snap ∉
           (enter_non_classic_execution_environment w snap tag ru rg sg s).state.trace) ∧
    (ru ≠ 0 → ¬ perSnapFatal w → w.joinPerUserNsResult = ESRCH →
       ∃ l1 l2,
         (enter_non_classic_execution_environment w snap tag ru rg sg s).state.trace
           = l1 ++ Event.joinPerUserNs snap :: Event.unsharePerUserNs :: l2 ∧
         (w.perUserUnshareOk = true → Event.setupUserMounts snap ∈ l2)) ∧
    (Event.preservePerUserNs snap ∈
         (enter_non_classic_execution_environment w snap tag ru rg sg s).state.trace ↔
       (ru ≠ 0 ∧ ¬ perSnapFatal w ∧ w.joinPerUserNsResult = ESRCH ∧
        w.perUserUnshareOk = true ∧ w.setupUserMountsOk = true ∧
        w.perUserFeature = true)) := by
  have hT := enter_state_trace w snap tag ru rg sg s
  rw [hs, List.nil_append] at hT
  refine ⟨?_, ?_, ?_⟩
  · intro hr
    refine ⟨?_, ?_, ?_, ?_⟩ <;> intro hm <;> rw [hT] at hm
    · have := user_ev_mem_perUser _ _ _ _ _ _ _ _ (Or.inl rfl) hm
      simp [perUserTrace, hr] at this
    · have := user_ev_mem_perUser _ _ _ _ _ _ _ _ (Or.inr (Or.inl rfl)) hm
      simp [perUserTrace, hr] at this
    · have := user_ev_mem_perUser _ _ _ _ _ _ _ _ (Or.inr (Or.inr (Or.inl rfl))) hm
      simp [perUserTrace, hr] at this
    · have := user_ev_mem_perUser _ _ _ _ _ _ _ _ (Or.inr (Or.inr (Or.inr rfl))) hm
      simp [perUserTrace, hr] at this
  · intro hr hpsf hj
    refine ⟨nsGlobalTrace ++ perSnapTrace w snap ++
              [Event.fixupPermissions, Event.fixupUdev],
      (if w.perUserUnshareOk = true then
        Event.setupUserMounts snap ::
          (if w.setupUserMountsOk = true then
            (if w.perUserFeature = true then [Event.preservePerUserNs snap] else [])
          else [])
      else []) ++ enterAfterUserTrace w snap tag ru rg sg s.creds, ?_, ?_⟩
    · rw [hT]
      simp [enterTraceF, enterAfterSnapTrace, perUserTrace, hr, hpsf, hj]
    · intro huo
      simp [huo]
  · constructor
    · intro hm
      rw [hT] at hm
      by_cases hpsf : perSnapFatal w
      · rw [enterTraceF_of_perSnapFatal w snap tag ru rg sg s.creds hpsf] at hm
        rcases List.mem_append.mp hm with h | h
        · simp [nsGlobalTrace] at h
        · rcases mem_perSnapTrace _ _ _ h with h|h|h|h|h|h|h|h <;> simp at h
      · have := preservePerUser_mem_perUserTrace w snap ru
          (user_ev_mem_perUser _ _ _ _ _ _ _ _ (Or.inr (Or.inr (Or.inr rfl))) hm)
        exact ⟨this.1, hpsf, this.2.1, this.2.2.1, this.2.2.2.1, this.2.2.2.2⟩
    · rintro ⟨hr, hpsf, hj, huo, hmo, hf⟩
      rw [hT]
      simp [enterTraceF, enterAfterSnapTrace, perUserTrace, hr, hpsf, hj, huo, hmo, hf]

/-- Witness for C6: in a concrete non-root run with a missing per-user
namespace and the feature flag disabled, the join and unshare happen
and nothing is preserved. -/
theorem c6_per_user_namespace_witness :
    ∃ l1 l2,
      (enter_non_classic_execution_environment
          { demoWorld with joinPerUserNsResult := 3 }
          "foo" "snap.foo.app" 1000 1000 0 demoState).state.trace
        = l1 ++ Event.joinPerUserNs "foo" :: Event.unsharePerUserNs :: l2 ∧
      (({ demoWorld with joinPerUserNsResult := 3 } : World).perUserUnshareOk = true →
        Event.setupUserMounts "foo" ∈ l2) :=
  (c6_per_user_namespace { demoWorld with joinPerUserNsResult := 3 }
    "foo" "snap.foo.app" 1000 1000 0 demoState rfl).2.1 (by decide) (by decide) rfl

theorem perSnapTrace_cons (w : World) (snap : String) :
    perSnapTrace w snap = Event.lockSnap snap :: perSnapRest w snap := by
  simp [perSnapTrace, perSnapRest]

theorem mem_perSnapRest (w : World) (snap : String) (e : Event)
    (h : e ∈ perSnapRest w snap) :
    e = Event.openMountNs snap ∨ e = Event.classifyDistro ∨ e = Event.forkHelper ∨
    e = Event.joinPreservedNs snap ∨ e = Event.unshareNs ∨
    e = Event.populateMountNs snap ∨ e = Event.preserveMountNs snap := by
  by_cases hj : w.joinNsResult = ESRCH
  · cases hu : w.unshareOk <;> cases hp : w.populateOk <;>
      (simp [perSnapRest, perSnapHead, hj, hu, hp] at h; tauto)
  · simp [perSnapRest, perSnapHead, hj] at h; tauto

theorem freezer_mem_cgroupTrace (c : Creds) (snap : String) (rg sg : Nat)
    (h : ¬ cgroupFatal c sg) :
    Event.cgroupFreezerJoin snap ∈ cgroupTrace c snap rg sg := by
  simp [cgroupTrace, h]

/-- In a run where the entry died, what follows the per-snap segment is
still only fixups, per-user and cgroup work: never an unlock. -/
theorem mem_enterAfterSnapTrace_fatal (w : World) (snap tag : String)
    (ru rg sg : Nat) (c : Creds) (e : Event)
    (hf : enterFatal w ru sg c)
    (h : e ∈ enterAfterSnapTrace w snap tag ru rg sg c) :
    e = Event.fixupPermissions ∨ e = Event.fixupUdev ∨
    e ∈ perUserTrace w snap ru ∨ e ∈ cgroupTrace c snap rg sg := by
  by_cases hpsf : perSnapFatal w
  · simp [enterAfterSnapTrace, hpsf] at h
  · simp only [enterAfterSnapTrace, hpsf, if_false, ite_false] at h
    by_cases hpuf : perUserFatal w ru
    · simp only [enterAfterUserTrace, hpuf, if_true, ite_true, List.append_nil] at h
      simp only [List.mem_cons, List.mem_append] at h
      tauto
    · have hcgf : cgroupFatal c sg := by
        rcases hf with h1 | h1 | h1
        · exact absurd h1 hpsf
        · exact absurd h1 hpuf
        · exact h1
      simp only [enterAfterUserTrace, hpuf, hcgf, if_true, ite_true, if_false,
        ite_false, List.append_nil] at h
      simp only [List.mem_cons, List.mem_append] at h
      tauto

/-- C4: the per-target lock is taken before the join attempt and, in a
completed entry, released only after the entire join-or-construct,
per-user and cgroup sequence; every target-namespace operation sits
strictly between the lock and the unlock, and in a run that died while
holding the lock no unlock is ever recorded. -/
theorem c4_per_snap_lock_interval (w : World) (snap tag : String) (ru rg sg : Nat)
    (s : PState) (hs : s.trace = []) :
    (¬ enterFatal w ru sg s.creds →
       ∃ mid tail,
         (enter_non_classic_execution_environment w snap tag ru rg sg s).state.trace
           = nsGlobalTrace ++ Event.lockSnap snap :: (mid ++ Event.unlockSnap snap :: tail) ∧
         Event.joinPreservedNs snap ∈ mid ∧
         Event.cgroupFreezerJoin snap ∈ mid ∧
         (∀ e ∈ mid, e ≠ Event.lockSnap snap ∧ e ≠ Event.unlockSnap snap) ∧
         (∀ e ∈ tail, targetNsOp e = false) ∧
         (∀ e ∈ nsGlobalTrace, targetNsOp e = false ∧ e ≠ Event.lockSnap snap ∧
            e ≠ Event.unlockSnap snap)) ∧
    (enterFatal w ru sg s.creds →
       ∃ mid,
         (enter_non_classic_execution_environment w snap tag ru rg sg s).state.trace
           = nsGlobalTrace ++ Event.lockSnap snap :: mid ∧
         (∀ e ∈ mid, e ≠ Event.lockSnap snap ∧ e ≠ Event.unlockSnap snap)) := by
  have hT := enter_state_trace w snap tag ru rg sg s
  rw [hs, List.nil_append] at hT
  constructor
  · intro hnf
    have hpsf : ¬ perSnapFatal w := fun h => hnf (Or.inl h)
    have hpuf : ¬ perUserFatal w ru := fun h => hnf (Or.inr (Or.inl h))
    have hcgf : ¬ cgroupFatal s.creds sg := fun h => hnf (Or.inr (Or.inr h))
    refine ⟨perSnapRest w snap ++ Event.fixupPermissions :: Event.fixupUdev ::
              (perUserTrace w snap ru ++ cgroupTrace s.creds snap rg sg),
            Event.closeMountNs :: envFinalizeTrace tag w.udevInitOk, ?_, ?_, ?_, ?_, ?_, ?_⟩
    · rw [hT]
      simp [enterTraceF, enterAfterSnapTrace, enterAfterUserTrace, perSnapTrace_cons,
        hpsf, hpuf, hcgf]
    · simp [perSnapRest, perSnapHead]
    · simp [freezer_mem_cgroupTrace s.creds snap rg sg hcgf]
    · intro e he
      simp only [List.mem_append, List.mem_cons] at he
      rcases he with h | h | h | h | h
      · rcases mem_perSnapRest _ _ _ h with rfl|rfl|rfl|rfl|rfl|rfl|rfl <;>
          exact ⟨by simp, by simp⟩
      · subst h; exact ⟨by simp, by simp⟩
      · subst h; exact ⟨by simp, by simp⟩
      · rcases mem_perUserTrace _ _ _ _ h with rfl|rfl|rfl|rfl <;>
          exact ⟨by simp, by simp⟩
      · rcases mem_cgroupTrace _ _ _ _ _ h with rfl|rfl|rfl <;>
          exact ⟨by simp, by simp⟩
    · intro e he
      simp only [List.mem_cons] at he
      rcases he with rfl | h
      · rfl
      · rcases mem_envFinalizeTrace _ _ _ h with rfl|rfl|rfl <;> rfl
    · intro e he
      simp only [nsGlobalTrace, List.mem_cons, List.not_mem_nil, or_false] at he
      rcases he with rfl|rfl|rfl|rfl|rfl|rfl|rfl <;>
        exact ⟨rfl, by simp, by simp⟩
  · intro hf
    refine ⟨perSnapRest w snap ++ enterAfterSnapTrace w snap tag ru rg sg s.creds,
            ?_, ?_⟩
    · rw [hT]
      simp [enterTraceF, perSnapTrace_cons]
    · intro e he
      rcases List.mem_append.mp he with h | h
      · rcases mem_perSnapRest _ _ _ h with rfl|rfl|rfl|rfl|rfl|rfl|rfl <;>
          exact ⟨by simp, by simp⟩
      · rcases mem_enterAfterSnapTrace_fatal w snap tag ru rg sg s.creds e hf h with
          rfl | rfl | h | h
        · exact ⟨by simp, by simp⟩
        · exact ⟨by simp, by simp⟩
        · rcases mem_perUserTrace _ _ _ _ h with rfl|rfl|rfl|rfl <;>
            exact ⟨by simp, by simp⟩
        · rcases mem_cgroupTrace _ _ _ _ _ h with rfl|rfl|rfl <;>
            exact ⟨by simp, by simp⟩

/-- Witness for C4 on a concrete successful entry. -/
theorem c4_per_snap_lock_interval_witness :
    ∃ mid tail,
      (enter_non_classic_execution_environment demoWorld "foo" "snap.foo.app"
          1000 1000 0 demoState).state.trace
        = nsGlobalTrace ++ Event.lockSnap "foo" ::
            (mid ++ Event.unlockSnap "foo" :: tail) ∧
      Event.joinPreservedNs "foo" ∈ mid ∧
      Event.cgroupFreezerJoin "foo" ∈ mid ∧
      (∀ e ∈ mid, e ≠ Event.lockSnap "foo" ∧ e ≠ Event.unlockSnap "foo") ∧
      (∀ e ∈ tail, targetNsOp e = false) ∧
      (∀ e ∈ nsGlobalTrace, targetNsOp e = false ∧ e ≠ Event.lockSnap "foo" ∧
         e ≠ Event.unlockSnap "foo") :=
  (c4_per_snap_lock_interval demoWorld "foo" "snap.foo.app" 1000 1000 0 demoState
    rfl).1 (by decide)

theorem enterTraceF_all_phase (w : World) (snap tag : String) (ru rg sg : Nat)
    (c : Creds) : ∀ e ∈ enterTraceF w snap tag ru rg sg c, enterPhaseEv e = true := by
  intro e he
  rcases mem_enterTraceF w snap tag ru rg sg c e he with h|h|h|h|h|h|h|h|h
  · simp only [nsGlobalTrace, List.mem_cons, List.not_mem_nil, or_false] at h
    rcases h with rfl|rfl|rfl|rfl|rfl|rfl|rfl <;> rfl
  · rcases mem_perSnapTrace _ _ _ h with rfl|rfl|rfl|rfl|rfl|rfl|rfl|rfl <;> rfl
  · subst h; rfl
  · subst h; rfl
  · rcases mem_perUserTrace _ _ _ _ h with rfl|rfl|rfl|rfl <;> rfl
  · rcases mem_cgroupTrace _ _ _ _ _ h with rfl|rfl|rfl <;> rfl
  · subst h; rfl
  · subst h; rfl
  · rcases mem_envFinalizeTrace _ _ _ h with rfl|rfl|rfl <;> rfl

theorem policy_false_of_phase (e : Event) (h : enterPhaseEv e = true) :
    policyOrFinalEv e = false := by
  cases e <;> first | rfl | exact absurd h (by simp [enterPhaseEv])

theorem not_cookieGet_of_phase (e : Event) (h : enterPhaseEv e = true) (sn : String) :
    e ≠ Event.cookieGet sn := by
  intro hc
  subst hc
  simp [enterPhaseEv] at h

/-- Decomposition of the completed-run trace into its sources. -/
theorem mem_mainOkTrace (w : World) (snap : String) (e : Event)
    (h : e ∈ mainOkTrace w snap) :
    e ∈ earlyEgids w ∨ e ∈ cookieTrace w snap ∨
    e ∈ enterTraceF w snap w.securityTag w.creds0.ruid w.creds0.rgid w.creds0.sgid
        (credsAfterEarly w) ∨
    e = Event.setEgid w.creds0.rgid ∨ e = Event.setEuid w.creds0.ruid ∨
    e = Event.setupUserData ∨ e = Event.aaChangeOnexec w.securityTag ∨
    e = Event.applySeccomp w.securityTag ∨ e = Event.applyGlobalSeccomp ∨
    e = Event.setGid w.creds0.rgid ∨ e = Event.setUid w.creds0.ruid := by
  by_cases h1 : w.creds0.euid = 0
  · by_cases h4 : w.creds0.ruid = 0 <;> cases h2 : w.classicConfinement <;>
      cases h3 : w.seccompNeedsGlobal <;>
      (simp only [mainOkTrace, mainTailTrace, h1, h2, h3, h4, if_true, ite_true,
         if_false, ite_false, Bool.false_eq_true, Bool.true_eq_false, ne_eq,
         not_true_eq_false, not_false_eq_true, and_true, and_self, List.append_assoc,
         List.mem_append, List.mem_cons, List.cons_append, List.nil_append,
         List.append_nil, List.not_mem_nil, or_false, false_or] at h ⊢; tauto)
  · cases h3 : w.seccompNeedsGlobal <;>
      (simp only [mainOkTrace, mainTailTrace, h1, h3, if_true, ite_true,
         if_false, ite_false, Bool.false_eq_true, Bool.true_eq_false, ne_eq,
         not_true_eq_false, not_false_eq_true, and_true, and_self, List.append_assoc,
         List.mem_append, List.mem_cons, List.cons_append, List.nil_append,
         List.append_nil, List.not_mem_nil, or_false, false_or] at h ⊢; tauto)

theorem isPrefix_intro {α : Type} {a t : List α} (r : List α) (h : t = a ++ r) :
    a <+: t := ⟨r, h.symm⟩

/-- Every run of `main`, fatal or not, only performs a prefix of the
events of the corresponding completed run. -/
theorem main_trace_below (w : World) (snap : String)
    (hGet : getenvL w.hostEnv "SNAP_INSTANCE_NAME" = some snap) :
    (main w).state.trace <+: mainOkTrace w snap := by
  unfold main
  cases hParse : w.argsParseOk
  · simp [hParse]
  cases hVer : w.isVersionQuery
  case true => simp [hParse, hVer]
  simp only [hParse, hVer, hGet]
  cases hIV : w.instanceNameValid
  · simp [hIV]
  cases hTV : w.securityTagValid
  · simp [hIV, hTV]
  cases hBV : w.baseSnapValid
  · simp [hIV, hTV, hBV]
  simp only [hIV, hTV, hBV]
  rw [earlyGidDropStep_eq w _ rfl]
  rw [stepToRun_ok]
  simp only [List.nil_append]
  rw [cookieStep_eq w snap]
  by_cases hRoot : w.creds0.euid = 0
  · simp only [credsAfterEarly_euid, hRoot, PState.emits_creds, ne_eq,
      not_true_eq_false, false_and, if_false, ite_false]
    simp only [Bool.false_eq_true, if_false, ite_false, if_true, ite_true, and_true]
    by_cases hAA : ¬w.aaIsConfined = true ∧ ¬w.aaNotApplicable = true ∧
        ¬w.creds0.ruid = 0
    · rw [if_pos hAA]
      exact isPrefix_intro _ (by simp [mainOkTrace, List.append_assoc]; rfl)
    · rw [if_neg hAA]
      cases hClassic : w.classicConfinement with
      | true =>
        simp only [if_true, ite_true, Step.andThen_ok]
        rw [tempDropStep_root_eq _ _ _ (by simp [hRoot])]
        by_cases hTF : (w.creds0.rgid ≠ 0 ∧ w.creds0.ruid = 0) ∨
            (w.creds0.ruid ≠ 0 ∧ w.creds0.rgid = 0)
        · rw [if_pos hTF]
          exact isPrefix_intro _
            (by simp [mainOkTrace, hRoot, hClassic, List.append_assoc]; rfl)
        · rw [if_neg hTF, stepToRun_ok, mainTail_eq]
          by_cases hRu : w.creds0.ruid = 0
          · simp only [PState.emits_creds, hRu, hRoot, ite_true, if_true]
            split_ifs with hPF
            · exact isPrefix_intro []
                (by simp [mainOkTrace, mainTailTrace, hRoot, hRu, hClassic,
                      List.append_assoc])
            · exact isPrefix_intro []
                (by simp [mainOkTrace, mainTailTrace, hRoot, hRu, hClassic,
                      List.append_assoc])
          · simp only [hRu, if_false, ite_false]
            exact isPrefix_intro []
              (by simp [mainOkTrace, mainTailTrace, hRoot, hRu, hClassic,
                    List.append_assoc])
      | false =>
        simp only [Bool.false_eq_true, if_false, ite_false]
        rw [enter_eq]
        by_cases hEF : enterFatal w w.creds0.ruid w.creds0.sgid (credsAfterEarly w)
        · simp only [PState.emits_creds, hEF, if_true, ite_true, Step.andThen_fatal,
            stepToRun_fatal]
          exact isPrefix_intro _
            (by simp [mainOkTrace, hRoot, hClassic, List.append_assoc]; rfl)
        · simp only [PState.emits_creds, hEF, if_false, ite_false, Step.andThen_ok]
          rw [tempDropStep_root_eq _ _ _ (by simp [hRoot])]
          by_cases hTF : (w.creds0.rgid ≠ 0 ∧ w.creds0.ruid = 0) ∨
              (w.creds0.ruid ≠ 0 ∧ w.creds0.rgid = 0)
          · rw [if_pos hTF]
            exact isPrefix_intro _
              (by simp [mainOkTrace, hRoot, hClassic, List.append_assoc]; rfl)
          · rw [if_neg hTF, stepToRun_ok, mainTail_eq]
            by_cases hRu : w.creds0.ruid = 0
            · simp only [hRu, hRoot, ite_true, if_true]
              split_ifs with hPF
              · exact isPrefix_intro []
                  (by simp [mainOkTrace, mainTailTrace, hRoot, hRu, hClassic,
                        List.append_assoc])
              · exact isPrefix_intro []
                  (by simp [mainOkTrace, mainTailTrace, hRoot, hRu, hClassic,
                        List.append_assoc])
            · simp only [hRu, if_false, ite_false]
              exact isPrefix_intro []
                (by simp [mainOkTrace, mainTailTrace, hRoot, hRu, hClassic,
                      List.append_assoc])
  · cases hNRB : w.snapConfineNoRoot
    · simp [hRoot, hNRB]
      exact isPrefix_intro _ (by simp [mainOkTrace, List.append_assoc]; rfl)
    · simp only [hNRB, hRoot, credsAfterEarly_euid, Bool.not_eq_true, not_true,
        not_false_iff, and_false, if_false, ite_false, if_true, ite_true,
        Bool.false_eq_true, stepToRun_ok, and_true]
      rw [mainTail_eq]
      simp only [credsAfterEarly_euid, hRoot, if_false, ite_false]
      exact isPrefix_intro []
        (by simp [mainOkTrace, mainTailTrace, hRoot, List.append_assoc])

theorem main_trace_nil_of_no_instance (w : World)
    (hGet : getenvL w.hostEnv "SNAP_INSTANCE_NAME" = none) :
    (main w).state.trace = [] := by
  unfold main
  cases hParse : w.argsParseOk <;> cases hVer : w.isVersionQuery <;>
    simp [hParse, hVer, hGet]

/-- C2: in every completed invocation that started with effective uid 0,
the MAC profile transition and the seccomp filter application happen
after the temporary drop of the effective group and user ids to the real
invoker's ids, and strictly before the final irreversible
setgid/setuid drop. -/
theorem c2_policy_between_drops (w : World) (p : String) (sOut : PState)
    (hRoot : w.creds0.euid = 0) (h : main w = Run.execed p sOut) :
    ∃ t gl pm,
      sOut.trace = t ++ Event.setEgid w.creds0.rgid :: Event.setEuid w.creds0.ruid ::
        Event.setupUserData :: Event.aaChangeOnexec w.securityTag ::
        Event.applySeccomp w.securityTag :: (gl ++ pm) ∧
      (∀ e ∈ t, policyOrFinalEv e = false) ∧
      (gl = [] ∨ gl = [Event.applyGlobalSeccomp]) ∧
      (pm = [] ∨ pm = [Event.setGid w.creds0.rgid, Event.setUid w.creds0.ruid]) := by
  obtain ⟨snap, hGet, hp, hTr, hEnv⟩ := main_execed_eq w p sOut h
  refine ⟨earlyEgids w ++ cookieTrace w snap ++
      (if w.classicConfinement = true then [] else
        enterTraceF w snap w.securityTag w.creds0.ruid w.creds0.rgid w.creds0.sgid
          (credsAfterEarly w)),
    (if w.seccompNeedsGlobal = true then [Event.applyGlobalSeccomp] else []),
    (if w.creds0.ruid = 0 then [Event.setGid w.creds0.rgid, Event.setUid w.creds0.ruid]
     else []), ?_, ?_, ?_, ?_⟩
  · rw [hTr]
    simp [mainOkTrace, mainTailTrace, hRoot, List.append_assoc]
  · intro e he
    rcases List.mem_append.mp he with he2 | he2
    · rcases List.mem_append.mp he2 with he3 | he3
      · by_cases hc : w.creds0.egid = 0 ∧ w.creds0.rgid ≠ 0
        · simp [earlyEgids, hc] at he3
          subst he3; rfl
        · simp [earlyEgids, hc] at he3
      · cases hH : w.isHookTag
        · simp [cookieTrace, hH] at he3
          subst he3; rfl
        · simp [cookieTrace, hH] at he3
    · cases hC : w.classicConfinement
      · simp only [hC, Bool.false_eq_true, if_false, ite_false] at he2
        exact policy_false_of_phase e
          (enterTraceF_all_phase w snap w.securityTag w.creds0.ruid w.creds0.rgid
            w.creds0.sgid (credsAfterEarly w) e he2)
      · simp [hC] at he2
  · cases hSG : w.seccompNeedsGlobal
    · exact Or.inl (by simp [hSG])
    · exact Or.inr (by simp [hSG])
  · by_cases hRu : w.creds0.ruid = 0
    · exact Or.inr (by simp [hRu])
    · exact Or.inl (by simp [hRu])

/-- Witness for C2 on a concrete completed run. -/
theorem c2_policy_between_drops_witness :
    ∃ t gl pm,
      (main demoWorld).state.trace
        = t ++ Event.setEgid 1000 :: Event.setEuid 1000 ::
            Event.setupUserData :: Event.aaChangeOnexec "snap.foo.app" ::
            Event.applySeccomp "snap.foo.app" :: (gl ++ pm) ∧
      (∀ e ∈ t, policyOrFinalEv e = false) ∧
      (gl = [] ∨ gl = [Event.applyGlobalSeccomp]) ∧
      (pm = [] ∨ pm = [Event.setGid 1000, Event.setUid 1000]) :=
  c2_policy_between_drops demoWorld "/usr/bin/foo" ((main demoWorld).state) rfl rfl

/-- C10: the snapd cookie is fetched only for non-hook security tags; a
completed run exports it into both SNAP_COOKIE and SNAP_CONTEXT exactly
when a non-null cookie was obtained, and otherwise leaves both
variables exactly as they were in the host environment. -/
theorem c10_cookie_propagation (w : World) :
    (w.isHookTag = true → ∀ sn, Event.cookieGet sn ∉ (main w).state.trace) ∧
    (∀ p sOut v, main w = Run.execed p sOut → w.isHookTag = false →
       w.cookieFromSnapd = some v →
       getenvL sOut.env "SNAP_COOKIE" = some v ∧
       getenvL sOut.env "SNAP_CONTEXT" = some v) ∧
    (∀ p sOut, main w = Run.execed p sOut →
       (w.isHookTag = true ∨ w.cookieFromSnapd = none) →
       getenvL sOut.env "SNAP_COOKIE" = getenvL w.hostEnv "SNAP_COOKIE" ∧
       getenvL sOut.env "SNAP_CONTEXT" = getenvL w.hostEnv "SNAP_CONTEXT") := by
  refine ⟨?_, ?_, ?_⟩
  · intro hH sn hmem
    cases hGet : getenvL w.hostEnv "SNAP_INSTANCE_NAME" with
    | none =>
      rw [main_trace_nil_of_no_instance w hGet] at hmem
      simp at hmem
    | some snap =>
      have hmem2 : Event.cookieGet sn ∈ mainOkTrace w snap :=
        (main_trace_below w snap hGet).subset hmem
      rcases mem_mainOkTrace w snap _ hmem2 with h|h|h|h|h|h|h|h|h|h|h
      · by_cases hc : w.creds0.egid = 0 ∧ w.creds0.rgid ≠ 0 <;>
          simp [earlyEgids, hc] at h
      · simp [cookieTrace, hH] at h
      · have := enterTraceF_all_phase w snap w.securityTag w.creds0.ruid
          w.creds0.rgid w.creds0.sgid (credsAfterEarly w) _ h
        simp [enterPhaseEv] at this
      all_goals simp at h
  · intro p sOut v hRun hH hC
    obtain ⟨snap, hGet, hp, hTr, hEnv⟩ := main_execed_eq w p sOut hRun
    rw [hEnv]
    have hcv : cookieValF w = some v := by simp [cookieValF, hH, hC]
    simp only [mainOkEnv, mainTailEnv, hcv]
    constructor
    · rw [getenvL_setenvL_other _ _ _ _ (by decide), getenvL_setenvL_same]
    · rw [getenvL_setenvL_same]
  · intro p sOut hRun hOr
    obtain ⟨snap, hGet, hp, hTr, hEnv⟩ := main_execed_eq w p sOut hRun
    rw [hEnv]
    have hcv : cookieValF w = none := by
      rcases hOr with h1 | h1 <;> simp [cookieValF, h1]
    simp only [mainOkEnv, mainTailEnv, hcv]
    by_cases hrc : w.creds0.euid = 0 ∧ w.classicConfinement = false
    · rw [if_pos hrc]
      exact ⟨getenvL_envFinalizeEnv_other _ _ (by decide) (by decide) (by decide),
             getenvL_envFinalizeEnv_other _ _ (by decide) (by decide) (by decide)⟩
    · rw [if_neg hrc]
      exact ⟨rfl, rfl⟩

/-- Witness for C10 on a concrete completed non-hook run with a cookie. -/
theorem c10_cookie_propagation_witness :
    getenvL (main demoWorld).state.env "SNAP_COOKIE" = some "c00kie" ∧
    getenvL (main demoWorld).state.env "SNAP_CONTEXT" = some "c00kie" :=
  (c10_cookie_propagation demoWorld).2.1 "/usr/bin/foo" ((main demoWorld).state)
    "c00kie" rfl rfl rfl

end SnapConfine

